import Mathlib

/-!
# Microcontroller smart watch: panel driver, display composer, HID endpoint

A shallow embedding of the firmware sources (`display_main.c`, `display_main.h`,
`display_templates.h`, `main.c`, `hid_device.c`, `hid_device.h`).

Every C function that talks to the platform is embedded as a function returning
the ordered list of platform calls it makes (`Effect`).  Pointers into byte
arrays are embedded as functions from an offset to the byte stored there, so
that `buffer + k` is `fun j => buffer (k + j)` and a transfer of `len` bytes
reads exactly the offsets `0 .. len-1`, as the C code does.
-/

namespace SmartWatch

/-! ## Constants of `display_main.h` -/

def X_OFFSET : Nat := 2
def Y_OFFSET : Nat := 1

def TIME_DISPLAY_X_OFFSET : Nat := 11
def TIME_DISPLAY_Y_OFFSET : Nat := 44

def ICON_DISPLAY_X_OFFSET : Nat := 49
def ICON_DISPLAY_Y_OFFSET : Nat := 92

def PIN_DATA_NCOMMAND : Nat := 12
def PIN_CHIP_SEL : Nat := 13
def PIN_RESET : Nat := 0

def WIDTH : Nat := 128
def HEIGHT : Nat := 128

def PIXEL_FORMAT : Nat := 0x55
def PIXEL_SIZE : Nat := 2
def GAMMA_CURVE : Nat := 0x01
def FRAME_SIZE : Nat := 32768

/-! ## Constants of `display_main.c` -/

def HIGH : Nat := 1
def LOW : Nat := 0

def CMD_SLPOUT : Nat := 0x11
def CMD_INVOFF : Nat := 0x20
def CMD_GAMSET : Nat := 0x26
def CMD_DISPON : Nat := 0x29
def CMD_CASET : Nat := 0x2A
def CMD_RASET : Nat := 0x2B
def CMD_RAMWR : Nat := 0x2C
def CMD_MADCTL : Nat := 0x36
def CMD_COLMOD : Nat := 0x3A

/-! ## Constants of `display_templates.h` -/

def NUM_WIDTH : Nat := 25
def NUM_HEIGHT : Nat := 42
def NUM_SIZE : Nat := 2100
def NUM_CHUNKS : Nat := 10

def SC_WIDTH : Nat := 9
def SC_HEIGHT : Nat := 42
def SC_SIZE : Nat := 756
def SC_CHUNKS : Nat := 4

def ICON_WIDTH : Nat := 30
def ICON_HEIGHT : Nat := 30
def ICON_SIZE : Nat := 1800
def ICON_CHUNKS : Nat := 8

/-! ## Constants of `hid_device.c` -/

def REPORT_BUFFER_SIZE : Nat := 4

def CTRL_NEXT : Nat := 0x01
def CTRL_PREV : Nat := 0x02
def CTRL_STOP : Nat := 0x04
def CTRL_PLAYPAUSE : Nat := 0x08
def CTRL_MUTE : Nat := 0x10
def CTRL_VOLUP : Nat := 0x20
def CTRL_VOLDOWN : Nat := 0x40

def PB_1_PIN : Nat := 4
def PB_2_PIN : Nat := 5

/-! ## Enumerations of the platform SDK used by the sources -/

/-- The `esp_hidd_status_t` values the callback distinguishes. -/
inductive esp_hidd_status_t
  | ESP_HIDD_SUCCESS
  | ESP_HIDD_ERROR
  deriving DecidableEq, Repr

/-- The `esp_hidd_connection_state_t` values. -/
inductive esp_hidd_connection_state_t
  | ESP_HIDD_CONN_STATE_CONNECTED
  | ESP_HIDD_CONN_STATE_CONNECTING
  | ESP_HIDD_CONN_STATE_DISCONNECTED
  | ESP_HIDD_CONN_STATE_DISCONNECTING
  | ESP_HIDD_CONN_STATE_UNKNOWN
  deriving DecidableEq, Repr

/-- The `esp_hidd_protocol_mode_t` values. -/
inductive esp_hidd_protocol_mode_t
  | ESP_HIDD_REPORT_MODE
  | ESP_HIDD_BOOT_MODE
  | ESP_HIDD_UNSUPPORTED_MODE
  deriving DecidableEq, Repr

/-- The `esp_hidd_report_type_t` values. -/
inductive esp_hidd_report_type_t
  | ESP_HIDD_REPORT_TYPE_OTHER
  | ESP_HIDD_REPORT_TYPE_INPUT
  | ESP_HIDD_REPORT_TYPE_OUTPUT
  | ESP_HIDD_REPORT_TYPE_FEATURE
  | ESP_HIDD_REPORT_TYPE_INTRDATA
  deriving DecidableEq, Repr

/-- The `esp_bt_connection_mode_t` values. -/
inductive esp_bt_connection_mode_t
  | ESP_BT_NON_CONNECTABLE
  | ESP_BT_CONNECTABLE
  deriving DecidableEq, Repr

/-- The `esp_bt_discovery_mode_t` values. -/
inductive esp_bt_discovery_mode_t
  | ESP_BT_NON_DISCOVERABLE
  | ESP_BT_LIMITED_DISCOVERABLE
  | ESP_BT_GENERAL_DISCOVERABLE
  deriving DecidableEq, Repr

open esp_hidd_status_t esp_hidd_connection_state_t esp_hidd_protocol_mode_t
open esp_hidd_report_type_t esp_bt_connection_mode_t esp_bt_discovery_mode_t

/-! ## Platform calls -/

/-- One call into the platform, in the order the firmware makes it.  A semaphore
handle is a number, `0` being `NULL`.  `spi_device_polling_transmit` carries the
transaction length in bits and the bytes read from `tx_buffer`; the run recorded
is one in which every transfer reports `ESP_OK` (the sources assert it).
`esp_bt_hid_device_send_report` carries the report type, id, length and the
byte its data pointer points to. -/
inductive Effect
  | gpio_config (pin_bit_mask : Nat) (output : Bool) (pull_up_en : Bool)
  | gpio_set_level (pin : Nat) (level : Nat)
  | spi_device_polling_transmit (length : Nat) (tx_buffer : List Nat)
  | vTaskDelay (ticks : Nat)
  | xSemaphoreTake (handle : Nat)
  | xSemaphoreGive (handle : Nat)
  | xSemaphoreCreateMutex
  | vSemaphoreDelete (handle : Nat)
  | esp_bt_hid_device_send_report (type : esp_hidd_report_type_t) (id : Nat) (len : Nat)
      (data : Nat)
  | esp_bt_hid_device_register_app
  | esp_bt_hid_device_connect
  | esp_bt_gap_set_scan_mode (c_mode : esp_bt_connection_mode_t)
      (d_mode : esp_bt_discovery_mode_t)
  | ESP_LOGI
  | ESP_LOGE
  deriving DecidableEq, Repr

/-! ## Panel driver (`display_main.c`) -/

/-- A pointer to bytes: the byte stored at each offset from it. -/
abbrev Buf := Nat → Nat

/-- The pointer `buffer + k`. -/
def Buf.offset (buffer : Buf) (k : Nat) : Buf := fun j => buffer (k + j)

/-- The pointer to the first element of a local array. -/
def Buf.ofList (l : List Nat) : Buf := fun j => l.getD j 0

/-- The bytes a transfer of `len` bytes reads from `data`. -/
def Buf.read (data : Buf) (len : Nat) : List Nat := (List.range len).map data

/-- Embeds `LCD_sendCommand`: data/command line low, then one 8-bit transfer. -/
def LCD_sendCommand (cmd : Nat) : List Effect :=
  [Effect.gpio_set_level PIN_DATA_NCOMMAND LOW,
   Effect.spi_device_polling_transmit 8 [cmd]]

/-- Embeds `LCD_sendData`: data/command line high, then (unless `len` is 0) one
transfer of `len` bytes. -/
def LCD_sendData (data : Buf) (len : Nat) : List Effect :=
  Effect.gpio_set_level PIN_DATA_NCOMMAND HIGH ::
    (if len = 0 then []
     else [Effect.spi_device_polling_transmit (len * 8) (data.read len)])

/-- Embeds `LCD_init`.  `portTICK_PERIOD_MS` is a platform configuration the
sources do not fix; the delays are requested as `ms / portTICK_PERIOD_MS` ticks. -/
def LCD_init (portTICK_PERIOD_MS : Nat) : List Effect :=
  [Effect.gpio_config (2 ^ PIN_DATA_NCOMMAND ||| 2 ^ PIN_RESET ||| 2 ^ PIN_CHIP_SEL) true true,
   Effect.gpio_set_level PIN_RESET LOW,
   Effect.vTaskDelay (100 / portTICK_PERIOD_MS),
   Effect.gpio_set_level PIN_RESET HIGH,
   Effect.vTaskDelay (100 / portTICK_PERIOD_MS)]
  ++ LCD_sendCommand CMD_SLPOUT
  ++ [Effect.vTaskDelay (120 / portTICK_PERIOD_MS)]
  ++ LCD_sendCommand CMD_MADCTL
  ++ LCD_sendData (Buf.ofList [0x00]) 1
  ++ LCD_sendCommand CMD_COLMOD
  ++ LCD_sendData (Buf.ofList [PIXEL_FORMAT]) 1
  ++ LCD_sendCommand CMD_GAMSET
  ++ LCD_sendData (Buf.ofList [GAMMA_CURVE]) 1
  ++ LCD_sendCommand CMD_INVOFF
  ++ LCD_sendCommand CMD_DISPON

/-- The loop of `LCD_sendFrame`: `remaining` iterations are left and the loop
counter is `i`. -/
def LCD_sendFrame.loop (buffer : Buf) (chunk_size : Nat) : (remaining i : Nat) → List Effect
  | 0, _ => []
  | remaining + 1, i =>
      LCD_sendData (buffer.offset (i * chunk_size)) chunk_size
        ++ LCD_sendFrame.loop buffer chunk_size remaining (i + 1)

/-- The body of `LCD_sendFrame` once `chunk_size` can be computed: `RAMWR`, then
the chunk loop. -/
def LCD_sendFrame.calls (buffer : Buf) (frame_size chunk_number : Nat) : List Effect :=
  let chunk_size := frame_size / chunk_number
  LCD_sendCommand CMD_RAMWR ++ LCD_sendFrame.loop buffer chunk_size chunk_number 0

/-- Embeds `LCD_sendFrame`.  Sizes are byte counts (all call sites pass
non-negative constants).  `chunk_number = 0` is an integer division by zero:
no result. -/
def LCD_sendFrame (buffer : Buf) (frame_size chunk_number : Nat) : Option (List Effect) :=
  if chunk_number = 0 then none
  else some (LCD_sendFrame.calls buffer frame_size chunk_number)

/-- Embeds `LCD_setDrawingWindow`.  The parameters are `uint8_t`; the sums
`x + w`, `y + h` are computed after integer promotion, each buffer cell keeps
the low 8 bits. -/
def LCD_setDrawingWindow (x y w h : Nat) : List Effect :=
  LCD_sendCommand CMD_CASET
  ++ LCD_sendData (Buf.ofList [(x >>> 8) &&& 0x00FF, x &&& 0x00FF,
        ((x + w) >>> 8) &&& 0x00FF, (x + w) &&& 0x00FF]) 4
  ++ LCD_sendCommand CMD_RASET
  ++ LCD_sendData (Buf.ofList [(y >>> 8) &&& 0x00FF, y &&& 0x00FF,
        ((y + h) >>> 8) &&& 0x00FF, (y + h) &&& 0x00FF]) 4

/-! ## What the panel sees -/

/-- One byte on the serial bus, tagged by the level of the data/command line
while it is transferred (low: command, high: data). -/
inductive WireByte
  | command (b : Nat)
  | data (b : Nat)
  deriving DecidableEq, Repr

/-- The byte stream the panel receives from a list of platform calls, given the
level `dc` of the data/command line before the first call. -/
def wire : (dc : Nat) → List Effect → List WireByte
  | _, [] => []
  | dc, Effect.gpio_set_level pin level :: rest =>
      if pin = PIN_DATA_NCOMMAND then wire level rest else wire dc rest
  | dc, Effect.spi_device_polling_transmit _ tx :: rest =>
      tx.map (fun b => if dc = LOW then WireByte.command b else WireByte.data b) ++ wire dc rest
  | dc, _ :: rest => wire dc rest

/-- The data bytes at the head of a byte stream, up to the next command byte. -/
def dataRun : List WireByte → List Nat
  | WireByte.data b :: rest => b :: dataRun rest
  | _ => []

/-- The data bytes between the first `RAMWR` command and the next command byte. -/
def ramwrPayload : List WireByte → List Nat
  | [] => []
  | WireByte.command c :: rest => if c = CMD_RAMWR then dataRun rest else ramwrPayload rest
  | WireByte.data _ :: rest => ramwrPayload rest

/-! ## Display composer and clock task (`main.c`) -/

/-- The bitmap tables declared in `display_templates.h`; their contents are
produced outside the sources. -/
structure Assets where
  display_numbers : Nat → Buf
  media_icons : Nat → Buf
  semi_colon : Buf

/-- Embeds `LCD_drawMediaIcon`. -/
def LCD_drawMediaIcon (A : Assets) (icon_index : Nat) : Option (List Effect) :=
  (LCD_sendFrame (A.media_icons icon_index) ICON_SIZE ICON_CHUNKS).map (fun frame =>
    LCD_setDrawingWindow ICON_DISPLAY_X_OFFSET ICON_DISPLAY_Y_OFFSET
      (ICON_WIDTH - 1) (ICON_HEIGHT - 1) ++ frame)

/-- The calls of `LCD_drawMediaIcon`: the window set, then the body of the frame
push (whose chunk count `ICON_CHUNKS` is not zero). -/
def LCD_drawMediaIcon.calls (A : Assets) (icon_index : Nat) : List Effect :=
  LCD_setDrawingWindow ICON_DISPLAY_X_OFFSET ICON_DISPLAY_Y_OFFSET
      (ICON_WIDTH - 1) (ICON_HEIGHT - 1)
    ++ LCD_sendFrame.calls (A.media_icons icon_index) ICON_SIZE ICON_CHUNKS

/-- The frame size the clock task passes to `LCD_sendFrame` in slot `i`. -/
def vTaskUpdateDisplayTime.frame_size (i : Nat) : Nat := if i = 2 then SC_SIZE else NUM_SIZE

/-- The chunk count the clock task passes to `LCD_sendFrame` in slot `i`. -/
def vTaskUpdateDisplayTime.chunk_number (_i : Nat) : Nat := NUM_CHUNKS

/-- The x position the clock task passes to `LCD_setDrawingWindow` in slot `i`. -/
def vTaskUpdateDisplayTime.x (i : Nat) : Nat :=
  TIME_DISPLAY_X_OFFSET + (if i < 3 then i * NUM_WIDTH else (i - 1) * NUM_WIDTH + SC_WIDTH)

/-- The width argument the clock task passes to `LCD_setDrawingWindow` in slot `i`. -/
def vTaskUpdateDisplayTime.w (i : Nat) : Nat := if i = 2 then SC_WIDTH - 1 else NUM_WIDTH - 1

/-- The body of the inner `for` loop of `vTaskUpdateDisplayTime` for slot `i`. -/
def vTaskUpdateDisplayTime.glyph (A : Assets) (time : List Nat) (i : Nat) :
    Option (List Effect) :=
  (LCD_sendFrame (if i = 2 then A.semi_colon else A.display_numbers (time.getD i 0))
      (vTaskUpdateDisplayTime.frame_size i) (vTaskUpdateDisplayTime.chunk_number i)).map
    (fun frame =>
      LCD_setDrawingWindow (vTaskUpdateDisplayTime.x i) TIME_DISPLAY_Y_OFFSET
        (vTaskUpdateDisplayTime.w i) (NUM_HEIGHT - 1) ++ frame)

/-- The inner `for` loop of `vTaskUpdateDisplayTime`: `remaining` iterations are
left and the loop counter is `i`. -/
def vTaskUpdateDisplayTime.loop (A : Assets) (time : List Nat) :
    (remaining i : Nat) → Option (List Effect)
  | 0, _ => some []
  | remaining + 1, i =>
      (vTaskUpdateDisplayTime.glyph A time i).bind (fun g =>
        (vTaskUpdateDisplayTime.loop A time remaining (i + 1)).map (fun rest => g ++ rest))

/-- One clock render: the `time` array and the five-slot loop. -/
def vTaskUpdateDisplayTime.draw (A : Assets) (hour mins : Nat) : Option (List Effect) :=
  vTaskUpdateDisplayTime.loop A [hour / 10, hour % 10, 0, mins / 10, mins % 10] 5 0

/-- The static variables `hour` and `mins` of the clock task (C `int`s that the
task keeps non-negative). -/
structure ClockState where
  hour : Nat
  mins : Nat
  deriving DecidableEq, Repr

/-- The compile-time initial value of the clock. -/
def ClockState.initial : ClockState := { hour := 5, mins := 40 }

/-- The clock advance at the end of an iteration of `vTaskUpdateDisplayTime`. -/
def vTaskUpdateDisplayTime.advance (s : ClockState) : ClockState :=
  if s.mins = 59 then
    if s.hour = 23 then { hour := 0, mins := 0 } else { hour := s.hour + 1, mins := 0 }
  else { hour := s.hour, mins := s.mins + 1 }

/-- One iteration of the endless loop of `vTaskUpdateDisplayTime`: render,
delay of 60000 ms, advance. -/
def vTaskUpdateDisplayTime.iteration (portTICK_PERIOD_MS : Nat) (A : Assets) (s : ClockState) :
    Option (ClockState × List Effect) :=
  (vTaskUpdateDisplayTime.draw A s.hour s.mins).map (fun d =>
    (vTaskUpdateDisplayTime.advance s, d ++ [Effect.vTaskDelay (60000 / portTICK_PERIOD_MS)]))

/-- The first `n` iterations of the clock task from state `s`. -/
def vTaskUpdateDisplayTime.run (portTICK_PERIOD_MS : Nat) (A : Assets) :
    (n : Nat) → ClockState → Option (ClockState × List Effect)
  | 0, s => some (s, [])
  | n + 1, s =>
      (vTaskUpdateDisplayTime.iteration portTICK_PERIOD_MS A s).bind (fun r =>
        (vTaskUpdateDisplayTime.run portTICK_PERIOD_MS A n r.1).map (fun r2 =>
          (r2.1, r.2 ++ r2.2)))

/-- The frame buffer `app_main` allocates: every byte is 125. -/
def app_main.frame_buffer : Buf := fun _ => 125

/-- The full-screen fill of `app_main`. -/
def app_main.fill : Option (List Effect) :=
  (LCD_sendFrame app_main.frame_buffer FRAME_SIZE 128).map (fun frame =>
    LCD_setDrawingWindow X_OFFSET Y_OFFSET (WIDTH - 1) (HEIGHT - 1) ++ frame)

/-- The display part of `app_main`: panel initialisation, then the fill. -/
def app_main.display (portTICK_PERIOD_MS : Nat) : Option (List Effect) :=
  app_main.fill.map (fun fill => LCD_init portTICK_PERIOD_MS ++ fill)

/-- Every `(frame_size, chunk_number)` pair the program passes to
`LCD_sendFrame`: the fill of `app_main`, the five slots of the clock task, and
`LCD_drawMediaIcon`. -/
def sendFrameCalls : List (Nat × Nat) :=
  (FRAME_SIZE, 128)
    :: (List.range 5).map (fun i =>
          (vTaskUpdateDisplayTime.frame_size i, vTaskUpdateDisplayTime.chunk_number i))
    ++ [(ICON_SIZE, ICON_CHUNKS)]

/-! ## HID endpoint and radio lifecycle (`hid_device.c`) -/

/-- The fields of the global `HID_config` the callbacks and the send primitive
use.  `config_mutex` is the semaphore handle (`0` is `NULL`). -/
structure HID_config_t where
  protocol_mode : esp_hidd_protocol_mode_t
  config_mutex : Nat
  buffer : List Nat
  deriving DecidableEq, Repr

/-- Embeds `send_media_report`.  `data` is the byte the argument points to.  The
locals `report_id` and `report_size` are assigned only in report mode; in any
other mode the two calls receive whatever the locals hold, given here as
`stale_id` and `stale_size`. -/
def send_media_report (portTICK_PERIOD_MS : Nat) (cfg : HID_config_t)
    (stale_id stale_size : Nat) (data : Nat) : List Effect :=
  let report_id := if cfg.protocol_mode = ESP_HIDD_REPORT_MODE then 0 else stale_id
  let report_size := if cfg.protocol_mode = ESP_HIDD_REPORT_MODE then 1 else stale_size
  let clear := 0x00
  [Effect.xSemaphoreTake cfg.config_mutex]
  ++ (if cfg.protocol_mode = ESP_HIDD_REPORT_MODE then [] else [Effect.ESP_LOGE])
  ++ [Effect.vTaskDelay (50 / portTICK_PERIOD_MS),
      Effect.ESP_LOGI,
      Effect.esp_bt_hid_device_send_report ESP_HIDD_REPORT_TYPE_INTRDATA report_id report_size
        data,
      Effect.vTaskDelay (50 / portTICK_PERIOD_MS),
      Effect.esp_bt_hid_device_send_report ESP_HIDD_REPORT_TYPE_INTRDATA report_id report_size
        clear,
      Effect.xSemaphoreGive cfg.config_mutex]

/-- Embeds `bt_app_shut_down`. -/
def bt_app_shut_down (cfg : HID_config_t) : HID_config_t × List Effect :=
  if cfg.config_mutex ≠ 0 then
    ({ cfg with config_mutex := 0 }, [Effect.vSemaphoreDelete cfg.config_mutex])
  else (cfg, [])

/-- The events of `esp_hidd_cb_event_t` with the fields of `esp_hidd_cb_param_t`
the callback reads. -/
inductive esp_hidd_cb_event_t
  | ESP_HIDD_INIT_EVT (status : esp_hidd_status_t)
  | ESP_HIDD_DEINIT_EVT
  | ESP_HIDD_REGISTER_APP_EVT (status : esp_hidd_status_t) (in_use : Bool)
  | ESP_HIDD_UNREGISTER_APP_EVT (status : esp_hidd_status_t)
  | ESP_HIDD_OPEN_EVT (status : esp_hidd_status_t) (conn_status : esp_hidd_connection_state_t)
  | ESP_HIDD_CLOSE_EVT (status : esp_hidd_status_t) (conn_status : esp_hidd_connection_state_t)
  | ESP_HIDD_SEND_REPORT_EVT (status : esp_hidd_status_t)
  | ESP_HIDD_REPORT_ERR_EVT
  | ESP_HIDD_SET_REPORT_EVT
  | ESP_HIDD_SET_PROTOCOL_EVT (protocol_mode : esp_hidd_protocol_mode_t)
  | ESP_HIDD_INTR_DATA_EVT
  | ESP_HIDD_VC_UNPLUG_EVT (status : esp_hidd_status_t)
      (conn_status : esp_hidd_connection_state_t)
  | other
  deriving DecidableEq, Repr

open esp_hidd_cb_event_t

/-- The disconnect branch shared by the close and the virtual-cable-unplug cases. -/
def esp_bt_hidd_cb.disconnected (cfg : HID_config_t) : HID_config_t × List Effect :=
  let r := bt_app_shut_down cfg
  (r.1, [Effect.ESP_LOGI] ++ r.2
    ++ [Effect.ESP_LOGI,
        Effect.esp_bt_gap_set_scan_mode ESP_BT_CONNECTABLE ESP_BT_GENERAL_DISCOVERABLE])

/-- Embeds `esp_bt_hidd_cb`.  `new_mutex` is the handle `xSemaphoreCreateMutex`
returns if the callback calls it. -/
def esp_bt_hidd_cb (cfg : HID_config_t) (new_mutex : Nat) :
    esp_hidd_cb_event_t → HID_config_t × List Effect
  | ESP_HIDD_INIT_EVT status =>
      if status = ESP_HIDD_SUCCESS then
        (cfg, [Effect.ESP_LOGI, Effect.esp_bt_hid_device_register_app])
      else (cfg, [Effect.ESP_LOGE])
  | ESP_HIDD_DEINIT_EVT => (cfg, [])
  | ESP_HIDD_REGISTER_APP_EVT status in_use =>
      if status = ESP_HIDD_SUCCESS then
        (cfg, [Effect.ESP_LOGI, Effect.ESP_LOGI,
               Effect.esp_bt_gap_set_scan_mode ESP_BT_CONNECTABLE ESP_BT_GENERAL_DISCOVERABLE]
              ++ (if in_use then [Effect.ESP_LOGI, Effect.esp_bt_hid_device_connect] else []))
      else (cfg, [Effect.ESP_LOGE])
  | ESP_HIDD_UNREGISTER_APP_EVT status =>
      if status = ESP_HIDD_SUCCESS then (cfg, [Effect.ESP_LOGI]) else (cfg, [Effect.ESP_LOGE])
  | ESP_HIDD_OPEN_EVT status conn_status =>
      if status = ESP_HIDD_SUCCESS then
        if conn_status = ESP_HIDD_CONN_STATE_CONNECTING then (cfg, [Effect.ESP_LOGI])
        else if conn_status = ESP_HIDD_CONN_STATE_CONNECTED then
          ({ cfg with config_mutex := new_mutex,
                      buffer := List.replicate REPORT_BUFFER_SIZE 0 },
           [Effect.ESP_LOGI, Effect.xSemaphoreCreateMutex, Effect.ESP_LOGI,
            Effect.esp_bt_gap_set_scan_mode ESP_BT_NON_CONNECTABLE ESP_BT_NON_DISCOVERABLE])
        else (cfg, [Effect.ESP_LOGE])
      else (cfg, [Effect.ESP_LOGE])
  | ESP_HIDD_CLOSE_EVT status conn_status =>
      if status = ESP_HIDD_SUCCESS then
        if conn_status = ESP_HIDD_CONN_STATE_DISCONNECTING then
          (cfg, [Effect.ESP_LOGI, Effect.ESP_LOGI])
        else if conn_status = ESP_HIDD_CONN_STATE_DISCONNECTED then
          let r := esp_bt_hidd_cb.disconnected cfg
          (r.1, Effect.ESP_LOGI :: r.2)
        else (cfg, [Effect.ESP_LOGI, Effect.ESP_LOGE])
      else (cfg, [Effect.ESP_LOGI, Effect.ESP_LOGE])
  | ESP_HIDD_SEND_REPORT_EVT status =>
      if status = ESP_HIDD_SUCCESS then (cfg, [Effect.ESP_LOGI]) else (cfg, [Effect.ESP_LOGE])
  | ESP_HIDD_REPORT_ERR_EVT => (cfg, [Effect.ESP_LOGI])
  | ESP_HIDD_SET_REPORT_EVT => (cfg, [Effect.ESP_LOGI])
  | ESP_HIDD_SET_PROTOCOL_EVT protocol_mode =>
      ({ cfg with protocol_mode := protocol_mode },
       [Effect.ESP_LOGI]
       ++ (if protocol_mode = ESP_HIDD_BOOT_MODE then [Effect.ESP_LOGI]
           else if protocol_mode = ESP_HIDD_REPORT_MODE then [Effect.ESP_LOGI] else [])
       ++ [Effect.xSemaphoreTake cfg.config_mutex, Effect.xSemaphoreGive cfg.config_mutex])
  | ESP_HIDD_INTR_DATA_EVT => (cfg, [Effect.ESP_LOGI])
  | ESP_HIDD_VC_UNPLUG_EVT status conn_status =>
      if status = ESP_HIDD_SUCCESS then
        if conn_status = ESP_HIDD_CONN_STATE_DISCONNECTED then
          let r := esp_bt_hidd_cb.disconnected cfg
          (r.1, Effect.ESP_LOGI :: r.2)
        else (cfg, [Effect.ESP_LOGI, Effect.ESP_LOGE])
      else (cfg, [Effect.ESP_LOGI, Effect.ESP_LOGE])
  | other => (cfg, [])

/-- The scan mode of the radio: what the last `esp_bt_gap_set_scan_mode` call
set, or `cur` if the calls contain none. -/
def scanModeAfter (cur : esp_bt_connection_mode_t × esp_bt_discovery_mode_t) :
    List Effect → esp_bt_connection_mode_t × esp_bt_discovery_mode_t
  | [] => cur
  | Effect.esp_bt_gap_set_scan_mode c d :: rest => scanModeAfter (c, d) rest
  | _ :: rest => scanModeAfter cur rest

/-- The array `media_control_data` of `push_button_handler`. -/
def media_control_data : List Nat :=
  [CTRL_NEXT, CTRL_PREV, CTRL_STOP, CTRL_PLAYPAUSE, CTRL_MUTE, CTRL_VOLUP, CTRL_VOLDOWN]

/-- One iteration of the endless loop of `push_button_handler` that received
`io_num` from the queue, with the static `icon_index` as the state. -/
def push_button_handler.iteration (portTICK_PERIOD_MS : Nat) (A : Assets) (cfg : HID_config_t)
    (stale_id stale_size : Nat) (icon_index : Nat) (io_num : Nat) : Option (Nat × List Effect) :=
  if io_num = PB_1_PIN then
    let icon_index := (icon_index + 1) % 6
    (LCD_drawMediaIcon A icon_index).map (fun d => (icon_index, Effect.ESP_LOGI :: d))
  else if io_num = PB_2_PIN then
    some (icon_index,
      Effect.ESP_LOGI ::
        send_media_report portTICK_PERIOD_MS cfg stale_id stale_size
          (media_control_data.getD icon_index 0))
  else some (icon_index, [Effect.ESP_LOGI])

/-- The handler task over the queue items `events`, from `icon_index`. -/
def push_button_handler.run (portTICK_PERIOD_MS : Nat) (A : Assets) (cfg : HID_config_t)
    (stale_id stale_size : Nat) : (icon_index : Nat) → (events : List Nat) →
    Option (Nat × List Effect)
  | icon_index, [] => some (icon_index, [])
  | icon_index, io_num :: events =>
      (push_button_handler.iteration portTICK_PERIOD_MS A cfg stale_id stale_size
          icon_index io_num).bind (fun r =>
        (push_button_handler.run portTICK_PERIOD_MS A cfg stale_id stale_size r.1 events).map
          (fun r2 => (r2.1, r.2 ++ r2.2)))

/-- The HID reports among a list of platform calls, in order. -/
def hidReports : List Effect → List (esp_hidd_report_type_t × Nat × Nat × Nat)
  | [] => []
  | Effect.esp_bt_hid_device_send_report t id len data :: rest =>
      (t, id, len, data) :: hidReports rest
  | _ :: rest => hidReports rest

/-- Whether a platform call is a log line. -/
def Effect.isLog : Effect → Bool
  | Effect.ESP_LOGI => true
  | Effect.ESP_LOGE => true
  | _ => false

/-- Whether a platform call drives the panel (pin write or bus transfer). -/
def Effect.isPanel : Effect → Bool
  | Effect.gpio_set_level _ _ => true
  | Effect.spi_device_polling_transmit _ _ => true
  | Effect.gpio_config _ _ _ => true
  | _ => false

/-! ## The report descriptor (`hid_device.c`) -/

/-- The array `hid_media_descriptor`. -/
def hid_media_descriptor : List Nat :=
  [0x05, 0x0c,
   0x09, 0x01,
   0xa1, 0x01,
   0x21, 0x00,
   0x25, 0x01,
   0x75, 0x01,
   0x95, 0x05,
   0x09, 0xb5,
   0x09, 0xb6,
   0x09, 0xb7,
   0x09, 0xcd,
   0x09, 0xe2,
   0x81, 0x06,
   0x95, 0x02,
   0x09, 0xe9,
   0x09, 0xea,
   0x81, 0x02,
   0x95, 0x01,
   0x81, 0x01,
   0xc0]

/-- The constant `hid_media_descriptor_len`: `sizeof(hid_media_descriptor)`. -/
def hid_media_descriptor_len : Nat := hid_media_descriptor.length

/-- How a host splits a report descriptor into short items: the low two bits of
the head byte give the number of payload bytes (0, 1, 2 or 4).  At most `fuel`
items are read. -/
def hidItems : (fuel : Nat) → List Nat → List (Nat × List Nat)
  | 0, _ => []
  | _, [] => []
  | fuel + 1, head :: rest =>
      let n := if head % 4 = 3 then 4 else head % 4
      (head, rest.take n) :: hidItems fuel (rest.drop n)

/-- One field of the report a descriptor declares: the usage assigned to it (if
any), the flags byte of the input item that declares it, and its size in bits. -/
structure HidField where
  usage : Option Nat
  flags : Nat
  size : Nat
  deriving DecidableEq, Repr

/-- What a host has read so far: the current report size and count, the usages
waiting for a main item, and the fields declared. -/
structure HidParse where
  report_size : Nat
  report_count : Nat
  usages : List Nat
  fields : List HidField
  deriving DecidableEq, Repr

/-- The effect of one short item on what the host has read: report size (head
0x75), report count (0x95), usage (0x09), input (0x81: `report_count` fields of
`report_size` bits, taking the pending usages in order); any other main item
(type bits zero, such as collection 0xA1 and end collection 0xC0) uses up the
pending usages. -/
def HidParse.step (st : HidParse) (item : Nat × List Nat) : HidParse :=
  if item.1 = 0x75 then { st with report_size := item.2.headD 0 }
  else if item.1 = 0x95 then { st with report_count := item.2.headD 0 }
  else if item.1 = 0x09 then { st with usages := st.usages ++ [item.2.headD 0] }
  else if item.1 = 0x81 then
    { st with
      fields := st.fields ++ (List.range st.report_count).map (fun i =>
        { usage := st.usages.get? i, flags := item.2.headD 0, size := st.report_size }),
      usages := [] }
  else if item.1 / 4 % 4 = 0 then { st with usages := [] }
  else st

/-- The fields of the input report a descriptor declares, in bit order. -/
def hidFields (descriptor : List Nat) : List HidField :=
  ((hidItems descriptor.length descriptor).foldl HidParse.step
    { report_size := 0, report_count := 0, usages := [], fields := [] }).fields

/-! ## Sequences of panel-driver operations -/

/-- The bus transfers among a list of platform calls, in order: length in bits
and bytes sent. -/
def busTransfers : List Effect → List (Nat × List Nat)
  | [] => []
  | Effect.spi_device_polling_transmit length tx :: rest => (length, tx) :: busTransfers rest
  | _ :: rest => busTransfers rest

/-- Whether a platform call writes the data/command line or is a bus transfer. -/
def Effect.touchesBus : Effect → Bool
  | Effect.gpio_set_level pin _ => pin = PIN_DATA_NCOMMAND
  | Effect.spi_device_polling_transmit _ _ => true
  | _ => false

/-- Whether every bus transfer in a list of platform calls directly follows a
write of the data/command line, with no call in between; `armed` tells whether
the call before the list was such a write. -/
def framed : (armed : Bool) → List Effect → Bool
  | _, [] => true
  | _, Effect.gpio_set_level pin _ :: rest => framed (pin = PIN_DATA_NCOMMAND) rest
  | armed, Effect.spi_device_polling_transmit _ _ :: rest => armed && framed false rest
  | _, _ :: rest => framed false rest

/-- One statement in the body of a panel-driver operation: a call of
`LCD_sendCommand`, a call of `LCD_sendData`, or a direct platform call. -/
inductive Step
  | command (cmd : Nat)
  | data (data : Buf) (len : Nat)
  | platform (e : Effect)

/-- The platform calls a statement makes. -/
def Step.calls : Step → List Effect
  | Step.command cmd => LCD_sendCommand cmd
  | Step.data buf len => LCD_sendData buf len
  | Step.platform e => [e]

/-- The bytes a statement means to put on the bus: a command byte for
`LCD_sendCommand`, data bytes for `LCD_sendData`. -/
def Step.intended : Step → List WireByte
  | Step.command cmd => [WireByte.command cmd]
  | Step.data buf len => (buf.read len).map WireByte.data
  | Step.platform _ => []

/-- Whether a statement, if a direct platform call, leaves the data/command line
and the bus alone. -/
def Step.ok : Step → Bool
  | Step.platform e => !e.touchesBus
  | _ => true

/-- The operations of the panel driver. -/
inductive PanelOp
  | send_command (cmd : Nat)
  | send_data (data : Buf) (len : Nat)
  | init (portTICK_PERIOD_MS : Nat)
  | set_window (x y w h : Nat)
  | send_frame (buffer : Buf) (size chunks : Nat)

/-- The platform calls of one operation (none if the frame push divides by
zero). -/
def PanelOp.calls : PanelOp → Option (List Effect)
  | PanelOp.send_command cmd => some (LCD_sendCommand cmd)
  | PanelOp.send_data data len => some (LCD_sendData data len)
  | PanelOp.init portTICK_PERIOD_MS => some (LCD_init portTICK_PERIOD_MS)
  | PanelOp.set_window x y w h => some (LCD_setDrawingWindow x y w h)
  | PanelOp.send_frame buffer size chunks => LCD_sendFrame buffer size chunks

/-- The statements of the body of one operation, in order, as written in
`display_main.c`. -/
def PanelOp.steps : PanelOp → Option (List Step)
  | PanelOp.send_command cmd => some [Step.command cmd]
  | PanelOp.send_data data len => some [Step.data data len]
  | PanelOp.init portTICK_PERIOD_MS =>
      some [Step.platform (Effect.gpio_config
              (2 ^ PIN_DATA_NCOMMAND ||| 2 ^ PIN_RESET ||| 2 ^ PIN_CHIP_SEL) true true),
            Step.platform (Effect.gpio_set_level PIN_RESET LOW),
            Step.platform (Effect.vTaskDelay (100 / portTICK_PERIOD_MS)),
            Step.platform (Effect.gpio_set_level PIN_RESET HIGH),
            Step.platform (Effect.vTaskDelay (100 / portTICK_PERIOD_MS)),
            Step.command CMD_SLPOUT,
            Step.platform (Effect.vTaskDelay (120 / portTICK_PERIOD_MS)),
            Step.command CMD_MADCTL,
            Step.data (Buf.ofList [0x00]) 1,
            Step.command CMD_COLMOD,
            Step.data (Buf.ofList [PIXEL_FORMAT]) 1,
            Step.command CMD_GAMSET,
            Step.data (Buf.ofList [GAMMA_CURVE]) 1,
            Step.command CMD_INVOFF,
            Step.command CMD_DISPON]
  | PanelOp.set_window x y w h =>
      some [Step.command CMD_CASET,
            Step.data (Buf.ofList [(x >>> 8) &&& 0x00FF, x &&& 0x00FF,
              ((x + w) >>> 8) &&& 0x00FF, (x + w) &&& 0x00FF]) 4,
            Step.command CMD_RASET,
            Step.data (Buf.ofList [(y >>> 8) &&& 0x00FF, y &&& 0x00FF,
              ((y + h) >>> 8) &&& 0x00FF, (y + h) &&& 0x00FF]) 4]
  | PanelOp.send_frame buffer size chunks =>
      if chunks = 0 then none
      else some (Step.command CMD_RAMWR ::
        (List.range chunks).map (fun i =>
          Step.data (buffer.offset (i * (size / chunks))) (size / chunks)))

/-- The platform calls of a sequence of operations. -/
def PanelOp.run : List PanelOp → Option (List Effect)
  | [] => some []
  | op :: ops => op.calls.bind (fun tr => (PanelOp.run ops).map (fun rest => tr ++ rest))

/-- The statements of a sequence of operations. -/
def PanelOp.runSteps : List PanelOp → Option (List Step)
  | [] => some []
  | op :: ops => op.steps.bind (fun st => (PanelOp.runSteps ops).map (fun rest => st ++ rest))

/-! ## Lemmas on the byte stream -/

theorem wire_sendCommand (dc cmd : Nat) (rest : List Effect) :
    wire dc (LCD_sendCommand cmd ++ rest) = WireByte.command cmd :: wire LOW rest := by
  simp [LCD_sendCommand, wire, LOW]

theorem wire_sendData (dc : Nat) (data : Buf) (len : Nat) (rest : List Effect) :
    wire dc (LCD_sendData data len ++ rest)
      = (data.read len).map WireByte.data ++ wire HIGH rest := by
  by_cases h : len = 0
  · subst h
    simp [LCD_sendData, wire, Buf.read]
  · simp [LCD_sendData, wire, h, HIGH, LOW]

theorem dataRun_map_data (l : List Nat) (rest : List WireByte) :
    dataRun (l.map WireByte.data ++ rest) = l ++ dataRun rest := by
  induction l with
  | nil => simp
  | cons b l ih => simp [dataRun, ih]

theorem read_add (data : Buf) (a b : Nat) :
    data.read (a + b) = data.read a ++ (data.offset a).read b := by
  simp [Buf.read, Buf.offset, List.range_add, List.map_map, Function.comp_def]

theorem wire_sendFrame_loop (buffer : Buf) (chunk_size : Nat) (rest : List Effect) :
    ∀ (remaining i dc : Nat),
      wire dc (LCD_sendFrame.loop buffer chunk_size remaining i ++ rest)
        = ((buffer.offset (i * chunk_size)).read (remaining * chunk_size)).map WireByte.data
            ++ wire (if remaining = 0 then dc else HIGH) rest := by
  intro remaining
  induction remaining with
  | zero => intro i dc; simp [LCD_sendFrame.loop, Buf.read]
  | succ n ih =>
    intro i dc
    have hsplit : (n + 1) * chunk_size = chunk_size + n * chunk_size := by ring
    have hoff : (buffer.offset (i * chunk_size)).offset chunk_size
        = buffer.offset ((i + 1) * chunk_size) := by
      funext j
      simp only [Buf.offset]
      congr 1
      ring
    rw [LCD_sendFrame.loop, List.append_assoc, wire_sendData, ih, hsplit, read_add, hoff]
    by_cases hn : n = 0
    · simp [hn]
    · simp [hn]

theorem wire_setDrawingWindow (dc x y w h : Nat) (rest : List Effect) :
    wire dc (LCD_setDrawingWindow x y w h ++ rest)
      = [WireByte.command CMD_CASET,
         WireByte.data ((x >>> 8) &&& 0x00FF), WireByte.data (x &&& 0x00FF),
         WireByte.data (((x + w) >>> 8) &&& 0x00FF), WireByte.data ((x + w) &&& 0x00FF),
         WireByte.command CMD_RASET,
         WireByte.data ((y >>> 8) &&& 0x00FF), WireByte.data (y &&& 0x00FF),
         WireByte.data (((y + h) >>> 8) &&& 0x00FF), WireByte.data ((y + h) &&& 0x00FF)]
        ++ wire HIGH rest := by
  simp only [LCD_setDrawingWindow, List.append_assoc, wire_sendCommand, wire_sendData]
  simp [Buf.read, Buf.ofList, List.range_succ]

/-- After a window set, the data bytes a frame push puts between `RAMWR` and the
next command are the first `chunk_number * (frame_size / chunk_number)` bytes of
the buffer. -/
theorem ramwrPayload_window_frame (dc x y w h : Nat) (buffer : Buf)
    (frame_size chunk_number : Nat) :
    (LCD_sendFrame buffer frame_size chunk_number).map (fun frame =>
        ramwrPayload (wire dc (LCD_setDrawingWindow x y w h ++ frame)))
      = if chunk_number = 0 then none
        else some (buffer.read (chunk_number * (frame_size / chunk_number))) := by
  by_cases hc : chunk_number = 0
  · simp [LCD_sendFrame, hc]
  · simp only [LCD_sendFrame, LCD_sendFrame.calls, hc, if_false, Option.map_some']
    rw [wire_setDrawingWindow, wire_sendCommand]
    have h0 := wire_sendFrame_loop buffer (frame_size / chunk_number) [] chunk_number 0 LOW
    simp only [List.append_nil, Nat.zero_mul] at h0
    have hoff : buffer.offset 0 = buffer := by
      funext j
      simp [Buf.offset]
    rw [h0, hoff]
    have hrun := dataRun_map_data (buffer.read (chunk_number * (frame_size / chunk_number))) []
    simp only [List.append_nil, dataRun] at hrun
    simp [ramwrPayload, hrun, wire, CMD_CASET, CMD_RASET, CMD_RAMWR]

theorem read_length (data : Buf) (len : Nat) : (data.read len).length = len := by
  simp [Buf.read]

/-! ## Frame sizes and chunk counts -/

/-- C1 (fails on the colon): among the `(frame_size, chunk_number)` pairs the
program passes to `LCD_sendFrame`, exactly the colon slot of the clock task,
`(SC_SIZE, NUM_CHUNKS) = (756, 10)`, is not an exact multiple: `756 % 10 = 6`,
although the chunk count `SC_CHUNKS = 4` declared next to `SC_SIZE` divides it;
the fill, the digits and the icon are exact multiples. -/
theorem colon_frame_size_not_multiple_of_chunks :
    sendFrameCalls.filter (fun c => c.1 % c.2 ≠ 0) = [(SC_SIZE, NUM_CHUNKS)]
      ∧ vTaskUpdateDisplayTime.frame_size 2 % vTaskUpdateDisplayTime.chunk_number 2 = 6
      ∧ SC_SIZE % SC_CHUNKS = 0
      ∧ FRAME_SIZE % 128 = 0 ∧ NUM_SIZE % NUM_CHUNKS = 0 ∧ ICON_SIZE % ICON_CHUNKS = 0 := by
  decide

/-- C2 (fails on the colon): for the colon slot of a clock render the data bytes
between `RAMWR` and the next command are the first 750 bytes of `semi_colon`,
six short of the `9 * 42 * 2 = 756` bytes of the 9x42 window; the digit slots
carry `25 * 42 * 2 = 2100` bytes, the icon `30 * 30 * 2 = 1800` and the fill
`128 * 128 * 2 = 32768`. -/
theorem colon_window_receives_750_bytes (A : Assets) (time : List Nat) (dc : Nat) :
    (vTaskUpdateDisplayTime.glyph A time 2).map (fun tr => ramwrPayload (wire dc tr))
        = some (A.semi_colon.read 750)
      ∧ (A.semi_colon.read 750).length = 750
      ∧ SC_WIDTH * SC_HEIGHT * PIXEL_SIZE = 756
      ∧ (∀ i, i < 5 → i ≠ 2 →
          (vTaskUpdateDisplayTime.glyph A time i).map
              (fun tr => (ramwrPayload (wire dc tr)).length)
            = some (NUM_WIDTH * NUM_HEIGHT * PIXEL_SIZE))
      ∧ (∀ icon_index, (LCD_drawMediaIcon A icon_index).map
              (fun tr => (ramwrPayload (wire dc tr)).length)
            = some (ICON_WIDTH * ICON_HEIGHT * PIXEL_SIZE))
      ∧ app_main.fill.map (fun tr => (ramwrPayload (wire dc tr)).length)
            = some (WIDTH * HEIGHT * PIXEL_SIZE) := by
  refine ⟨?_, read_length _ _, by decide, ?_, ?_, ?_⟩
  · have h := ramwrPayload_window_frame dc (vTaskUpdateDisplayTime.x 2) TIME_DISPLAY_Y_OFFSET
      (vTaskUpdateDisplayTime.w 2) (NUM_HEIGHT - 1) A.semi_colon SC_SIZE NUM_CHUNKS
    simpa [vTaskUpdateDisplayTime.glyph, vTaskUpdateDisplayTime.frame_size,
      vTaskUpdateDisplayTime.chunk_number, Option.map_map, Function.comp_def, NUM_CHUNKS,
      SC_SIZE] using h
  · intro i _ hi
    have h := ramwrPayload_window_frame dc (vTaskUpdateDisplayTime.x i) TIME_DISPLAY_Y_OFFSET
      (vTaskUpdateDisplayTime.w i) (NUM_HEIGHT - 1) (A.display_numbers (time.getD i 0))
      NUM_SIZE NUM_CHUNKS
    have h2 := congrArg (Option.map List.length) h
    simpa [vTaskUpdateDisplayTime.glyph, vTaskUpdateDisplayTime.frame_size,
      vTaskUpdateDisplayTime.chunk_number, Option.map_map, Function.comp_def, NUM_CHUNKS,
      NUM_SIZE, hi, read_length, NUM_WIDTH, NUM_HEIGHT, PIXEL_SIZE] using h2
  · intro icon_index
    have h := ramwrPayload_window_frame dc ICON_DISPLAY_X_OFFSET ICON_DISPLAY_Y_OFFSET
      (ICON_WIDTH - 1) (ICON_HEIGHT - 1) (A.media_icons icon_index) ICON_SIZE ICON_CHUNKS
    have h2 := congrArg (Option.map List.length) h
    simpa [LCD_drawMediaIcon, Option.map_map, Function.comp_def, ICON_CHUNKS, ICON_SIZE,
      read_length, ICON_WIDTH, ICON_HEIGHT, PIXEL_SIZE] using h2
  · have h := ramwrPayload_window_frame dc X_OFFSET Y_OFFSET (WIDTH - 1) (HEIGHT - 1)
      app_main.frame_buffer FRAME_SIZE 128
    have h2 := congrArg (Option.map List.length) h
    simpa [app_main.fill, Option.map_map, Function.comp_def, FRAME_SIZE, read_length, WIDTH,
      HEIGHT, PIXEL_SIZE] using h2

/-! ## The send primitive -/

/-- C3: in report mode `send_media_report` makes exactly these calls, in order:
take the HID configuration mutex, delay of 50 ms (as `50 / portTICK_PERIOD_MS`
ticks), one log line, an interrupt-channel report with id 0 and length 1
carrying the mask, delay of 50 ms, an interrupt-channel report with id 0 and
length 1 carrying 0x00, give the mutex.  Apart from the log line these are the
take, delay, press report, delay, release report, give of the claim, and the
only two reports are the press followed by the release. -/
theorem send_media_report_report_mode (portTICK_PERIOD_MS : Nat) (cfg : HID_config_t)
    (stale_id stale_size mask : Nat) (hmode : cfg.protocol_mode = ESP_HIDD_REPORT_MODE) :
    send_media_report portTICK_PERIOD_MS cfg stale_id stale_size mask
        = [Effect.xSemaphoreTake cfg.config_mutex,
           Effect.vTaskDelay (50 / portTICK_PERIOD_MS),
           Effect.ESP_LOGI,
           Effect.esp_bt_hid_device_send_report ESP_HIDD_REPORT_TYPE_INTRDATA 0 1 mask,
           Effect.vTaskDelay (50 / portTICK_PERIOD_MS),
           Effect.esp_bt_hid_device_send_report ESP_HIDD_REPORT_TYPE_INTRDATA 0 1 0x00,
           Effect.xSemaphoreGive cfg.config_mutex]
      ∧ (send_media_report portTICK_PERIOD_MS cfg stale_id stale_size mask).filter
            (fun e => !e.isLog)
        = [Effect.xSemaphoreTake cfg.config_mutex,
           Effect.vTaskDelay (50 / portTICK_PERIOD_MS),
           Effect.esp_bt_hid_device_send_report ESP_HIDD_REPORT_TYPE_INTRDATA 0 1 mask,
           Effect.vTaskDelay (50 / portTICK_PERIOD_MS),
           Effect.esp_bt_hid_device_send_report ESP_HIDD_REPORT_TYPE_INTRDATA 0 1 0x00,
           Effect.xSemaphoreGive cfg.config_mutex]
      ∧ hidReports (send_media_report portTICK_PERIOD_MS cfg stale_id stale_size mask)
        = [(ESP_HIDD_REPORT_TYPE_INTRDATA, 0, 1, mask),
           (ESP_HIDD_REPORT_TYPE_INTRDATA, 0, 1, 0x00)] := by
  refine ⟨?_, ?_, ?_⟩ <;> simp [send_media_report, hmode, hidReports, Effect.isLog]

/-- Witness of C3: the play/pause mask with a 10 ms tick, on a connected
endpoint in report mode. -/
theorem send_media_report_report_mode_witness :
    send_media_report 10 { protocol_mode := ESP_HIDD_REPORT_MODE, config_mutex := 1,
                           buffer := [0, 0, 0, 0] } 7 9 0x08
        = [Effect.xSemaphoreTake 1,
           Effect.vTaskDelay (50 / 10),
           Effect.ESP_LOGI,
           Effect.esp_bt_hid_device_send_report ESP_HIDD_REPORT_TYPE_INTRDATA 0 1 0x08,
           Effect.vTaskDelay (50 / 10),
           Effect.esp_bt_hid_device_send_report ESP_HIDD_REPORT_TYPE_INTRDATA 0 1 0x00,
           Effect.xSemaphoreGive 1] :=
  (send_media_report_report_mode 10
    { protocol_mode := ESP_HIDD_REPORT_MODE, config_mutex := 1, buffer := [0, 0, 0, 0] }
    7 9 0x08 rfl).1

/-! ## The clock -/

theorem sendFrame_eq_some (buffer : Buf) (frame_size chunk_number : Nat)
    (hc : chunk_number ≠ 0) :
    LCD_sendFrame buffer frame_size chunk_number
      = some (LCD_sendFrame.calls buffer frame_size chunk_number) := by
  simp [LCD_sendFrame, hc]

theorem glyph_eq_some (A : Assets) (time : List Nat) (i : Nat) :
    vTaskUpdateDisplayTime.glyph A time i
      = some (LCD_setDrawingWindow (vTaskUpdateDisplayTime.x i) TIME_DISPLAY_Y_OFFSET
                (vTaskUpdateDisplayTime.w i) (NUM_HEIGHT - 1)
              ++ LCD_sendFrame.calls
                  (if i = 2 then A.semi_colon else A.display_numbers (time.getD i 0))
                  (vTaskUpdateDisplayTime.frame_size i) NUM_CHUNKS) := by
  simp [vTaskUpdateDisplayTime.glyph, vTaskUpdateDisplayTime.chunk_number, LCD_sendFrame,
    NUM_CHUNKS]

theorem draw_eq_some (A : Assets) (hour mins : Nat) :
    vTaskUpdateDisplayTime.draw A hour mins
      = some (LCD_setDrawingWindow 11 44 24 41
                ++ LCD_sendFrame.calls (A.display_numbers (hour / 10)) 2100 10
              ++ (LCD_setDrawingWindow 36 44 24 41
                ++ LCD_sendFrame.calls (A.display_numbers (hour % 10)) 2100 10)
              ++ (LCD_setDrawingWindow 61 44 8 41
                ++ LCD_sendFrame.calls A.semi_colon 756 10)
              ++ (LCD_setDrawingWindow 70 44 24 41
                ++ LCD_sendFrame.calls (A.display_numbers (mins / 10)) 2100 10)
              ++ (LCD_setDrawingWindow 95 44 24 41
                ++ LCD_sendFrame.calls (A.display_numbers (mins % 10)) 2100 10)) := by
  simp [vTaskUpdateDisplayTime.draw, vTaskUpdateDisplayTime.loop, glyph_eq_some,
    vTaskUpdateDisplayTime.x, vTaskUpdateDisplayTime.w, vTaskUpdateDisplayTime.frame_size,
    TIME_DISPLAY_X_OFFSET, TIME_DISPLAY_Y_OFFSET, NUM_WIDTH, NUM_HEIGHT, SC_WIDTH, SC_SIZE,
    NUM_SIZE, NUM_CHUNKS]

/-- C4: for every hour in 0..23 and minute in 0..59 the clock advance maps
(23, 59) to (0, 0), (H, 59) with H < 23 to (H + 1, 0), and (H, M) with M < 59 to
(H, M + 1); an iteration of the clock task renders, delays 60000 ms and hands
exactly this successor to the next iteration, so the second of two iterations
renders the successor of the time the first rendered. -/
theorem clock_advance_is_successor (portTICK_PERIOD_MS : Nat) (A : Assets) (hour mins : Nat)
    (hh : hour < 24) (hm : mins < 60) :
    (hour = 23 → mins = 59 →
        vTaskUpdateDisplayTime.advance { hour := hour, mins := mins }
          = { hour := 0, mins := 0 })
      ∧ (hour < 23 → mins = 59 →
        vTaskUpdateDisplayTime.advance { hour := hour, mins := mins }
          = { hour := hour + 1, mins := 0 })
      ∧ (mins < 59 →
        vTaskUpdateDisplayTime.advance { hour := hour, mins := mins }
          = { hour := hour, mins := mins + 1 })
      ∧ (vTaskUpdateDisplayTime.advance { hour := hour, mins := mins }).hour < 24
      ∧ (vTaskUpdateDisplayTime.advance { hour := hour, mins := mins }).mins < 60
      ∧ (∃ d, vTaskUpdateDisplayTime.draw A hour mins = some d
            ∧ vTaskUpdateDisplayTime.iteration portTICK_PERIOD_MS A
                { hour := hour, mins := mins }
              = some (vTaskUpdateDisplayTime.advance { hour := hour, mins := mins },
                      d ++ [Effect.vTaskDelay (60000 / portTICK_PERIOD_MS)])
            ∧ ∃ d2,
                vTaskUpdateDisplayTime.draw A
                    (vTaskUpdateDisplayTime.advance { hour := hour, mins := mins }).hour
                    (vTaskUpdateDisplayTime.advance { hour := hour, mins := mins }).mins
                  = some d2
                ∧ (vTaskUpdateDisplayTime.run portTICK_PERIOD_MS A 2
                      { hour := hour, mins := mins }).map Prod.snd
                  = some (d ++ [Effect.vTaskDelay (60000 / portTICK_PERIOD_MS)]
                      ++ (d2 ++ [Effect.vTaskDelay (60000 / portTICK_PERIOD_MS)] ++ []))) := by
  refine ⟨?_, ?_, ?_, ?_, ?_, ?_⟩
  · intro h1 h2
    simp [vTaskUpdateDisplayTime.advance, h1, h2]
  · intro h1 h2
    have : hour ≠ 23 := by omega
    simp [vTaskUpdateDisplayTime.advance, this, h2]
  · intro h1
    have : mins ≠ 59 := by omega
    simp [vTaskUpdateDisplayTime.advance, this]
  · unfold vTaskUpdateDisplayTime.advance
    dsimp only
    split_ifs <;> dsimp only <;> omega
  · unfold vTaskUpdateDisplayTime.advance
    dsimp only
    split_ifs <;> dsimp only <;> omega
  · refine ⟨_, draw_eq_some A hour mins, ?_, _, draw_eq_some A _ _, ?_⟩
    · simp [vTaskUpdateDisplayTime.iteration, draw_eq_some]
    · simp [vTaskUpdateDisplayTime.run, vTaskUpdateDisplayTime.iteration, draw_eq_some]

/-- Witness of C4: the hour roll-over from 05:59. -/
theorem clock_advance_is_successor_witness :
    vTaskUpdateDisplayTime.advance { hour := 5, mins := 59 } = { hour := 5 + 1, mins := 0 } :=
  (clock_advance_is_successor 10
    { display_numbers := fun _ _ => 0, media_icons := fun _ _ => 0, semi_colon := fun _ => 0 }
    5 59 (by decide) (by decide)).2.1 (by decide) rfl

/-- C7: for every hour in 0..23 and minute in 0..59 one clock render is exactly
five window-set-and-frame pairs, in this order: digit `hour / 10` at x = 11,
digit `hour % 10` at x = 36, the colon at x = 61, digit `mins / 10` at x = 70,
digit `mins % 10` at x = 95, all at y = 44, the window set receiving width - 1
(24, 24, 8, 24, 24) and height - 1 (41); the x positions are the anchor plus
0, 25, 50, 59, 84 whatever the time, and the four digit indices are below 10. -/
theorem clock_render_five_glyphs (A : Assets) (hour mins : Nat)
    (hh : hour < 24) (hm : mins < 60) :
    vTaskUpdateDisplayTime.draw A hour mins
        = some (LCD_setDrawingWindow 11 44 (25 - 1) (42 - 1)
                  ++ LCD_sendFrame.calls (A.display_numbers (hour / 10)) 2100 10
                ++ (LCD_setDrawingWindow 36 44 (25 - 1) (42 - 1)
                  ++ LCD_sendFrame.calls (A.display_numbers (hour % 10)) 2100 10)
                ++ (LCD_setDrawingWindow 61 44 (9 - 1) (42 - 1)
                  ++ LCD_sendFrame.calls A.semi_colon 756 10)
                ++ (LCD_setDrawingWindow 70 44 (25 - 1) (42 - 1)
                  ++ LCD_sendFrame.calls (A.display_numbers (mins / 10)) 2100 10)
                ++ (LCD_setDrawingWindow 95 44 (25 - 1) (42 - 1)
                  ++ LCD_sendFrame.calls (A.display_numbers (mins % 10)) 2100 10))
      ∧ (List.range 5).map vTaskUpdateDisplayTime.x = [11, 36, 61, 70, 95]
      ∧ (List.range 5).map vTaskUpdateDisplayTime.x
          = [0, 25, 50, 59, 84].map (fun d => TIME_DISPLAY_X_OFFSET + d)
      ∧ (List.range 5).map (fun i => vTaskUpdateDisplayTime.w i + 1) = [25, 25, 9, 25, 25]
      ∧ TIME_DISPLAY_Y_OFFSET = 44 ∧ NUM_HEIGHT = 42
      ∧ hour / 10 < 10 ∧ hour % 10 < 10 ∧ mins / 10 < 10 ∧ mins % 10 < 10 := by
  refine ⟨draw_eq_some A hour mins, by decide, by decide, by decide, rfl, rfl, ?_, ?_, ?_, ?_⟩
    <;> omega

/-- Witness of C7: the render of 05:40 draws the digits 0, 5, the colon, 4, 0
(with bitmaps in which every byte of digit `d` is `d` and every byte of the colon
is 10). -/
theorem clock_render_five_glyphs_witness :
    vTaskUpdateDisplayTime.draw
        { display_numbers := fun d _ => d, media_icons := fun k _ => k,
          semi_colon := fun _ => 10 } 5 40
        = some (LCD_setDrawingWindow 11 44 (25 - 1) (42 - 1)
                  ++ LCD_sendFrame.calls (fun _ => 5 / 10) 2100 10
                ++ (LCD_setDrawingWindow 36 44 (25 - 1) (42 - 1)
                  ++ LCD_sendFrame.calls (fun _ => 5 % 10) 2100 10)
                ++ (LCD_setDrawingWindow 61 44 (9 - 1) (42 - 1)
                  ++ LCD_sendFrame.calls (fun _ => 10) 756 10)
                ++ (LCD_setDrawingWindow 70 44 (25 - 1) (42 - 1)
                  ++ LCD_sendFrame.calls (fun _ => 40 / 10) 2100 10)
                ++ (LCD_setDrawingWindow 95 44 (25 - 1) (42 - 1)
                  ++ LCD_sendFrame.calls (fun _ => 40 % 10) 2100 10)) :=
  (clock_render_five_glyphs
    { display_numbers := fun d _ => d, media_icons := fun k _ => k, semi_colon := fun _ => 10 }
    5 40 (by decide) (by decide)).1

/-! ## The drawing window -/

theorem byte_cells (v : Nat) :
    (v >>> 8) &&& 0x00FF = v / 256 % 256 ∧ v &&& 0x00FF = v % 256 := by
  have h1 : (v >>> 8) &&& (2 ^ 8 - 1) = (v >>> 8) % 2 ^ 8 :=
    Nat.and_pow_two_sub_one_eq_mod (v >>> 8) 8
  have h2 : v &&& (2 ^ 8 - 1) = v % 2 ^ 8 := Nat.and_pow_two_sub_one_eq_mod v 8
  have h3 : v >>> 8 = v / 2 ^ 8 := Nat.shiftRight_eq_div_pow v 8
  rw [h3] at h1
  rw [h3]
  exact ⟨h1, h2⟩

/-- C8: for unsigned bytes x, y, w, h the window set makes exactly these calls:
data/command low and the byte `CASET` (0x2A); data/command high and the four
bytes `0, x, (x + w) / 256, (x + w) % 256`; data/command low and the byte
`RASET` (0x2B); data/command high and the four bytes
`0, y, (y + h) / 256, (y + h) % 256`.  The end bytes are the 16-bit big-endian
encoding of the sum taken without 8-bit wrap-around. -/
theorem setDrawingWindow_emits (x y w h : Nat)
    (hx : x < 256) (hy : y < 256) (hw : w < 256) (hh : h < 256) :
    LCD_setDrawingWindow x y w h
        = [Effect.gpio_set_level PIN_DATA_NCOMMAND LOW,
           Effect.spi_device_polling_transmit 8 [0x2A],
           Effect.gpio_set_level PIN_DATA_NCOMMAND HIGH,
           Effect.spi_device_polling_transmit 32 [0, x, (x + w) / 256, (x + w) % 256],
           Effect.gpio_set_level PIN_DATA_NCOMMAND LOW,
           Effect.spi_device_polling_transmit 8 [0x2B],
           Effect.gpio_set_level PIN_DATA_NCOMMAND HIGH,
           Effect.spi_device_polling_transmit 32 [0, y, (y + h) / 256, (y + h) % 256]]
      ∧ (∀ dc, wire dc (LCD_setDrawingWindow x y w h)
          = [WireByte.command 0x2A,
             WireByte.data 0, WireByte.data x,
             WireByte.data ((x + w) / 256), WireByte.data ((x + w) % 256),
             WireByte.command 0x2B,
             WireByte.data 0, WireByte.data y,
             WireByte.data ((y + h) / 256), WireByte.data ((y + h) % 256)])
      ∧ 256 * ((x + w) / 256) + (x + w) % 256 = x + w
      ∧ 256 * ((y + h) / 256) + (y + h) % 256 = y + h
      ∧ (x + w) / 256 < 256 ∧ (y + h) / 256 < 256 := by
  have e1 : (x >>> 8) &&& 0x00FF = 0 := by rw [(byte_cells x).1]; omega
  have e2 : x &&& 0x00FF = x := by rw [(byte_cells x).2]; omega
  have e3 : ((x + w) >>> 8) &&& 0x00FF = (x + w) / 256 := by
    rw [(byte_cells (x + w)).1]; omega
  have e4 : (x + w) &&& 0x00FF = (x + w) % 256 := (byte_cells (x + w)).2
  have f1 : (y >>> 8) &&& 0x00FF = 0 := by rw [(byte_cells y).1]; omega
  have f2 : y &&& 0x00FF = y := by rw [(byte_cells y).2]; omega
  have f3 : ((y + h) >>> 8) &&& 0x00FF = (y + h) / 256 := by
    rw [(byte_cells (y + h)).1]; omega
  have f4 : (y + h) &&& 0x00FF = (y + h) % 256 := (byte_cells (y + h)).2
  refine ⟨?_, ?_, by omega, by omega, by omega, by omega⟩
  · simp only [LCD_setDrawingWindow, e1, e2, e3, e4, f1, f2, f3, f4]
    simp [LCD_sendCommand, LCD_sendData, Buf.read, Buf.ofList, List.range_succ, CMD_CASET,
      CMD_RASET]
  · intro dc
    have hw := wire_setDrawingWindow dc x y w h []
    simp only [List.append_nil, e1, e2, e3, e4, f1, f2, f3, f4] at hw
    rw [hw]
    simp [wire, CMD_CASET, CMD_RASET]

/-- Witness of C8: x = 200, w = 100 gives the end column 300 = 0x012C, sent as
the bytes 1, 44. -/
theorem setDrawingWindow_emits_witness :
    LCD_setDrawingWindow 200 1 100 127
      = [Effect.gpio_set_level PIN_DATA_NCOMMAND LOW,
         Effect.spi_device_polling_transmit 8 [0x2A],
         Effect.gpio_set_level PIN_DATA_NCOMMAND HIGH,
         Effect.spi_device_polling_transmit 32 [0, 200, (200 + 100) / 256, (200 + 100) % 256],
         Effect.gpio_set_level PIN_DATA_NCOMMAND LOW,
         Effect.spi_device_polling_transmit 8 [0x2B],
         Effect.gpio_set_level PIN_DATA_NCOMMAND HIGH,
         Effect.spi_device_polling_transmit 32 [0, 1, (1 + 127) / 256, (1 + 127) % 256]] :=
  (setDrawingWindow_emits 200 1 100 127 (by decide) (by decide) (by decide) (by decide)).1

/-! ## Panel initialisation -/

/-- C9: `LCD_init` makes exactly these calls, in order: pin configuration; reset
line low; delay of 100 ms; reset line high; delay of 100 ms; command `SLPOUT`
(0x11); delay of 120 ms; command `MADCTL` (0x36) with data 0x00; command
`COLMOD` (0x3A) with data 0x55; command `GAMSET` (0x26) with data 0x01; command
`INVOFF` (0x20); command `DISPON` (0x29).  Delays are requested as
`ms / portTICK_PERIOD_MS` ticks.  The panel receives exactly the nine bytes
listed, none before the reset pulse ends and none between `SLPOUT` and the
120 ms delay. -/
theorem init_sequence (portTICK_PERIOD_MS : Nat) :
    LCD_init portTICK_PERIOD_MS
        = [Effect.gpio_config (2 ^ 12 ||| 2 ^ 0 ||| 2 ^ 13) true true,
           Effect.gpio_set_level PIN_RESET LOW,
           Effect.vTaskDelay (100 / portTICK_PERIOD_MS),
           Effect.gpio_set_level PIN_RESET HIGH,
           Effect.vTaskDelay (100 / portTICK_PERIOD_MS),
           Effect.gpio_set_level PIN_DATA_NCOMMAND LOW,
           Effect.spi_device_polling_transmit 8 [0x11],
           Effect.vTaskDelay (120 / portTICK_PERIOD_MS),
           Effect.gpio_set_level PIN_DATA_NCOMMAND LOW,
           Effect.spi_device_polling_transmit 8 [0x36],
           Effect.gpio_set_level PIN_DATA_NCOMMAND HIGH,
           Effect.spi_device_polling_transmit 8 [0x00],
           Effect.gpio_set_level PIN_DATA_NCOMMAND LOW,
           Effect.spi_device_polling_transmit 8 [0x3A],
           Effect.gpio_set_level PIN_DATA_NCOMMAND HIGH,
           Effect.spi_device_polling_transmit 8 [0x55],
           Effect.gpio_set_level PIN_DATA_NCOMMAND LOW,
           Effect.spi_device_polling_transmit 8 [0x26],
           Effect.gpio_set_level PIN_DATA_NCOMMAND HIGH,
           Effect.spi_device_polling_transmit 8 [0x01],
           Effect.gpio_set_level PIN_DATA_NCOMMAND LOW,
           Effect.spi_device_polling_transmit 8 [0x20],
           Effect.gpio_set_level PIN_DATA_NCOMMAND LOW,
           Effect.spi_device_polling_transmit 8 [0x29]]
      ∧ (∀ dc, wire dc (LCD_init portTICK_PERIOD_MS)
          = [WireByte.command 0x11,
             WireByte.command 0x36, WireByte.data 0x00,
             WireByte.command 0x3A, WireByte.data 0x55,
             WireByte.command 0x26, WireByte.data 0x01,
             WireByte.command 0x20,
             WireByte.command 0x29])
      ∧ (∀ dc, wire dc ((LCD_init portTICK_PERIOD_MS).take 5) = [])
      ∧ (∀ dc, wire dc ((LCD_init portTICK_PERIOD_MS).take 7) = [WireByte.command 0x11])
      ∧ (LCD_init portTICK_PERIOD_MS).get? 7
          = some (Effect.vTaskDelay (120 / portTICK_PERIOD_MS)) := by
  have hlist : LCD_init portTICK_PERIOD_MS
      = [Effect.gpio_config (2 ^ 12 ||| 2 ^ 0 ||| 2 ^ 13) true true,
         Effect.gpio_set_level PIN_RESET LOW,
         Effect.vTaskDelay (100 / portTICK_PERIOD_MS),
         Effect.gpio_set_level PIN_RESET HIGH,
         Effect.vTaskDelay (100 / portTICK_PERIOD_MS),
         Effect.gpio_set_level PIN_DATA_NCOMMAND LOW,
         Effect.spi_device_polling_transmit 8 [0x11],
         Effect.vTaskDelay (120 / portTICK_PERIOD_MS),
         Effect.gpio_set_level PIN_DATA_NCOMMAND LOW,
         Effect.spi_device_polling_transmit 8 [0x36],
         Effect.gpio_set_level PIN_DATA_NCOMMAND HIGH,
         Effect.spi_device_polling_transmit 8 [0x00],
         Effect.gpio_set_level PIN_DATA_NCOMMAND LOW,
         Effect.spi_device_polling_transmit 8 [0x3A],
         Effect.gpio_set_level PIN_DATA_NCOMMAND HIGH,
         Effect.spi_device_polling_transmit 8 [0x55],
         Effect.gpio_set_level PIN_DATA_NCOMMAND LOW,
         Effect.spi_device_polling_transmit 8 [0x26],
         Effect.gpio_set_level PIN_DATA_NCOMMAND HIGH,
         Effect.spi_device_polling_transmit 8 [0x01],
         Effect.gpio_set_level PIN_DATA_NCOMMAND LOW,
         Effect.spi_device_polling_transmit 8 [0x20],
         Effect.gpio_set_level PIN_DATA_NCOMMAND LOW,
         Effect.spi_device_polling_transmit 8 [0x29]] := rfl
  refine ⟨hlist, ?_, ?_, ?_, ?_⟩
  · intro dc; rw [hlist]; simp [wire, PIN_RESET, PIN_DATA_NCOMMAND, LOW, HIGH]
  · intro dc; rw [hlist]; simp [wire, PIN_RESET, PIN_DATA_NCOMMAND, LOW, HIGH]
  · intro dc; rw [hlist]; simp [wire, PIN_RESET, PIN_DATA_NCOMMAND, LOW, HIGH]
  · rw [hlist]; rfl

/-! ## The input handler -/

theorem drawMediaIcon_eq_some (A : Assets) (icon_index : Nat) :
    LCD_drawMediaIcon A icon_index = some (LCD_drawMediaIcon.calls A icon_index) := by
  simp [LCD_drawMediaIcon, LCD_drawMediaIcon.calls, LCD_sendFrame, ICON_CHUNKS]

theorem hidReports_append (a b : List Effect) :
    hidReports (a ++ b) = hidReports a ++ hidReports b := by
  induction a with
  | nil => simp [hidReports]
  | cons e a ih => cases e <;> simp [hidReports, ih]

theorem hidReports_sendCommand (cmd : Nat) : hidReports (LCD_sendCommand cmd) = [] := by
  simp [LCD_sendCommand, hidReports]

theorem hidReports_sendData (data : Buf) (len : Nat) :
    hidReports (LCD_sendData data len) = [] := by
  by_cases h : len = 0 <;> simp [LCD_sendData, hidReports, h]

theorem hidReports_sendFrame_loop (buffer : Buf) (chunk_size : Nat) :
    ∀ remaining i, hidReports (LCD_sendFrame.loop buffer chunk_size remaining i) = [] := by
  intro remaining
  induction remaining with
  | zero => intro i; simp [LCD_sendFrame.loop, hidReports]
  | succ n ih =>
    intro i
    simp [LCD_sendFrame.loop, hidReports_append, hidReports_sendData, ih]

theorem hidReports_drawMediaIcon (A : Assets) (icon_index : Nat) :
    hidReports (LCD_drawMediaIcon.calls A icon_index) = [] := by
  simp [LCD_drawMediaIcon.calls, LCD_setDrawingWindow, LCD_sendFrame.calls, hidReports_append,
    hidReports_sendCommand, hidReports_sendData, hidReports_sendFrame_loop]

theorem button_a_iteration (portTICK_PERIOD_MS : Nat) (A : Assets) (cfg : HID_config_t)
    (stale_id stale_size s : Nat) :
    push_button_handler.iteration portTICK_PERIOD_MS A cfg stale_id stale_size s PB_1_PIN
      = some ((s + 1) % 6, Effect.ESP_LOGI :: LCD_drawMediaIcon.calls A ((s + 1) % 6)) := by
  simp [push_button_handler.iteration, drawMediaIcon_eq_some]

theorem button_a_run (portTICK_PERIOD_MS : Nat) (A : Assets) (cfg : HID_config_t)
    (stale_id stale_size : Nat) :
    ∀ n s, s < 6 → ∃ tr,
      push_button_handler.run portTICK_PERIOD_MS A cfg stale_id stale_size s
          (List.replicate n PB_1_PIN) = some ((s + n) % 6, tr)
        ∧ hidReports tr = [] := by
  intro n
  induction n with
  | zero =>
    intro s hs
    exact ⟨[], by simp [push_button_handler.run, Nat.mod_eq_of_lt hs], rfl⟩
  | succ n ih =>
    intro s _
    obtain ⟨tr, htr, hrep⟩ := ih ((s + 1) % 6) (Nat.mod_lt _ (by decide))
    refine ⟨Effect.ESP_LOGI :: LCD_drawMediaIcon.calls A ((s + 1) % 6) ++ tr, ?_, ?_⟩
    · have hmod : ((s + 1) % 6 + n) % 6 = (s + (n + 1)) % 6 := by omega
      simp [List.replicate_succ, push_button_handler.run, button_a_iteration, htr, hmod]
    · simp [hidReports, hidReports_append, hidReports_drawMediaIcon, hrep]

/-- C5: a Button A event (queue item `PB_1_PIN`) replaces the selection `s` by
`(s + 1) % 6` and then makes exactly the calls of `LCD_drawMediaIcon` with the
new selection (after one log line), none of them a HID report; from selection 0,
`n` presses leave the selection at `n % 6` without any HID report, and six
presses drive the selection through 1, 2, 3, 4, 5, 0 and draw the icons
1, 2, 3, 4, 5, 0 in that order. -/
theorem button_a_cycles_selection (portTICK_PERIOD_MS : Nat) (A : Assets) (cfg : HID_config_t)
    (stale_id stale_size : Nat) :
    (∀ s, push_button_handler.iteration portTICK_PERIOD_MS A cfg stale_id stale_size s PB_1_PIN
            = some ((s + 1) % 6, Effect.ESP_LOGI :: LCD_drawMediaIcon.calls A ((s + 1) % 6))
          ∧ LCD_drawMediaIcon A ((s + 1) % 6)
              = some (LCD_drawMediaIcon.calls A ((s + 1) % 6))
          ∧ hidReports (Effect.ESP_LOGI :: LCD_drawMediaIcon.calls A ((s + 1) % 6)) = [])
      ∧ (∀ n, ∃ tr,
          push_button_handler.run portTICK_PERIOD_MS A cfg stale_id stale_size 0
              (List.replicate n PB_1_PIN) = some (n % 6, tr)
            ∧ hidReports tr = [])
      ∧ (List.range 7).map (fun n =>
            (push_button_handler.run portTICK_PERIOD_MS A cfg stale_id stale_size 0
              (List.replicate n PB_1_PIN)).map Prod.fst)
          = [some 0, some 1, some 2, some 3, some 4, some 5, some 0]
      ∧ push_button_handler.run portTICK_PERIOD_MS A cfg stale_id stale_size 0
            (List.replicate 6 PB_1_PIN)
          = some (0,
              (Effect.ESP_LOGI :: LCD_drawMediaIcon.calls A 1)
                ++ ((Effect.ESP_LOGI :: LCD_drawMediaIcon.calls A 2)
                ++ ((Effect.ESP_LOGI :: LCD_drawMediaIcon.calls A 3)
                ++ ((Effect.ESP_LOGI :: LCD_drawMediaIcon.calls A 4)
                ++ ((Effect.ESP_LOGI :: LCD_drawMediaIcon.calls A 5)
                ++ ((Effect.ESP_LOGI :: LCD_drawMediaIcon.calls A 0) ++ [])))))) := by
  refine ⟨?_, ?_, ?_, ?_⟩
  · intro s
    exact ⟨button_a_iteration _ _ _ _ _ _, drawMediaIcon_eq_some _ _,
      by simp [hidReports, hidReports_drawMediaIcon]⟩
  · intro n
    obtain ⟨tr, htr, hrep⟩ :=
      button_a_run portTICK_PERIOD_MS A cfg stale_id stale_size n 0 (by decide)
    exact ⟨tr, by simpa using htr, hrep⟩
  · simp [List.range_succ, List.replicate_succ, push_button_handler.run, button_a_iteration]
  · simp [List.replicate_succ, push_button_handler.run, button_a_iteration]

/-- C6: for every selection `s` in 0..6 a Button B event (queue item `PB_2_PIN`)
leaves the selection at `s` and makes exactly the calls of `send_media_report`
with the single-bit mask `2 ^ s` (after one log line), none of them a panel
call; the reports are two interrupt-channel reports carrying `2 ^ s` and then
0x00, and in report mode both have id 0 and length 1. -/
theorem button_b_sends_selected_mask (portTICK_PERIOD_MS : Nat) (A : Assets)
    (cfg : HID_config_t) (stale_id stale_size s : Nat) (hs : s ≤ 6) :
    push_button_handler.iteration portTICK_PERIOD_MS A cfg stale_id stale_size s PB_2_PIN
        = some (s, Effect.ESP_LOGI ::
            send_media_report portTICK_PERIOD_MS cfg stale_id stale_size (2 ^ s))
      ∧ media_control_data.getD s 0 = 2 ^ s
      ∧ (Effect.ESP_LOGI ::
            send_media_report portTICK_PERIOD_MS cfg stale_id stale_size (2 ^ s)).filter
          Effect.isPanel = []
      ∧ (hidReports (Effect.ESP_LOGI ::
            send_media_report portTICK_PERIOD_MS cfg stale_id stale_size (2 ^ s))).map
          (fun r => (r.1, r.2.2.2))
          = [(ESP_HIDD_REPORT_TYPE_INTRDATA, 2 ^ s), (ESP_HIDD_REPORT_TYPE_INTRDATA, 0x00)]
      ∧ (cfg.protocol_mode = ESP_HIDD_REPORT_MODE →
          hidReports (Effect.ESP_LOGI ::
            send_media_report portTICK_PERIOD_MS cfg stale_id stale_size (2 ^ s))
          = [(ESP_HIDD_REPORT_TYPE_INTRDATA, 0, 1, 2 ^ s),
             (ESP_HIDD_REPORT_TYPE_INTRDATA, 0, 1, 0x00)]) := by
  have hmask : media_control_data.getD s 0 = 2 ^ s := by
    interval_cases s <;> rfl
  refine ⟨?_, hmask, ?_, ?_, ?_⟩
  · simp only [push_button_handler.iteration, hmask]
    simp [PB_1_PIN, PB_2_PIN]
  · by_cases hm : cfg.protocol_mode = ESP_HIDD_REPORT_MODE <;>
      simp [send_media_report, hm, Effect.isPanel]
  · by_cases hm : cfg.protocol_mode = ESP_HIDD_REPORT_MODE <;>
      simp [send_media_report, hm, hidReports]
  · intro hm
    simp [send_media_report, hm, hidReports]

/-- Witness of C6: with selection 3 (play/pause) in report mode, Button B sends
the report byte 0x08 and then the report byte 0x00. -/
theorem button_b_sends_selected_mask_witness :
    hidReports (Effect.ESP_LOGI ::
        send_media_report 10
          { protocol_mode := ESP_HIDD_REPORT_MODE, config_mutex := 1, buffer := [0, 0, 0, 0] }
          7 9 (2 ^ 3))
      = [(ESP_HIDD_REPORT_TYPE_INTRDATA, 0, 1, 2 ^ 3),
         (ESP_HIDD_REPORT_TYPE_INTRDATA, 0, 1, 0x00)]
      ∧ (2 : Nat) ^ 3 = 0x08 :=
  ⟨(button_b_sends_selected_mask 10
      { display_numbers := fun _ _ => 0, media_icons := fun _ _ => 0, semi_colon := fun _ => 0 }
      { protocol_mode := ESP_HIDD_REPORT_MODE, config_mutex := 1, buffer := [0, 0, 0, 0] }
      7 9 3 (by decide)).2.2.2.2 rfl, by decide⟩

/-! ## The connection cycle -/

/-- C10: from the advertising state (mutex handle null, scan mode connectable and
general-discoverable) an open event with status success and connection status
connected calls the mutex creation, stores the new handle, zeroes the four-byte
report buffer and sets the scan mode to non-connectable and non-discoverable; a
following close event with status success and connection status disconnected
deletes that mutex, leaves the handle null and sets the scan mode back to
connectable and general-discoverable. -/
theorem connection_cycle (cfg : HID_config_t) (new_mutex later_mutex : Nat)
    (hadv : cfg.config_mutex = 0) (hnew : new_mutex ≠ 0) :
    esp_bt_hidd_cb cfg new_mutex
          (ESP_HIDD_OPEN_EVT ESP_HIDD_SUCCESS ESP_HIDD_CONN_STATE_CONNECTED)
        = ({ protocol_mode := cfg.protocol_mode, config_mutex := new_mutex,
             buffer := [0, 0, 0, 0] },
           [Effect.ESP_LOGI, Effect.xSemaphoreCreateMutex, Effect.ESP_LOGI,
            Effect.esp_bt_gap_set_scan_mode ESP_BT_NON_CONNECTABLE ESP_BT_NON_DISCOVERABLE])
      ∧ scanModeAfter (ESP_BT_CONNECTABLE, ESP_BT_GENERAL_DISCOVERABLE)
          (esp_bt_hidd_cb cfg new_mutex
            (ESP_HIDD_OPEN_EVT ESP_HIDD_SUCCESS ESP_HIDD_CONN_STATE_CONNECTED)).2
        = (ESP_BT_NON_CONNECTABLE, ESP_BT_NON_DISCOVERABLE)
      ∧ esp_bt_hidd_cb
          (esp_bt_hidd_cb cfg new_mutex
            (ESP_HIDD_OPEN_EVT ESP_HIDD_SUCCESS ESP_HIDD_CONN_STATE_CONNECTED)).1
          later_mutex (ESP_HIDD_CLOSE_EVT ESP_HIDD_SUCCESS ESP_HIDD_CONN_STATE_DISCONNECTED)
        = ({ protocol_mode := cfg.protocol_mode, config_mutex := 0, buffer := [0, 0, 0, 0] },
           [Effect.ESP_LOGI, Effect.ESP_LOGI, Effect.vSemaphoreDelete new_mutex,
            Effect.ESP_LOGI,
            Effect.esp_bt_gap_set_scan_mode ESP_BT_CONNECTABLE ESP_BT_GENERAL_DISCOVERABLE])
      ∧ scanModeAfter (ESP_BT_NON_CONNECTABLE, ESP_BT_NON_DISCOVERABLE)
          (esp_bt_hidd_cb
            (esp_bt_hidd_cb cfg new_mutex
              (ESP_HIDD_OPEN_EVT ESP_HIDD_SUCCESS ESP_HIDD_CONN_STATE_CONNECTED)).1
            later_mutex
            (ESP_HIDD_CLOSE_EVT ESP_HIDD_SUCCESS ESP_HIDD_CONN_STATE_DISCONNECTED)).2
        = (ESP_BT_CONNECTABLE, ESP_BT_GENERAL_DISCOVERABLE)
      ∧ (esp_bt_hidd_cb
            (esp_bt_hidd_cb cfg new_mutex
              (ESP_HIDD_OPEN_EVT ESP_HIDD_SUCCESS ESP_HIDD_CONN_STATE_CONNECTED)).1
            later_mutex
            (ESP_HIDD_CLOSE_EVT ESP_HIDD_SUCCESS ESP_HIDD_CONN_STATE_DISCONNECTED)).1.config_mutex
        = cfg.config_mutex := by
  refine ⟨?_, ?_, ?_, ?_, ?_⟩ <;>
    simp [esp_bt_hidd_cb, esp_bt_hidd_cb.disconnected, bt_app_shut_down, scanModeAfter, hnew,
      hadv, REPORT_BUFFER_SIZE, List.replicate]

/-- Witness of C10: the cycle from the state `HIDDevice_BT_init` leaves (report
mode, no mutex), with the handle 1 returned by the mutex creation. -/
theorem connection_cycle_witness :
    esp_bt_hidd_cb
        (esp_bt_hidd_cb
          { protocol_mode := ESP_HIDD_REPORT_MODE, config_mutex := 0, buffer := [0, 0, 0, 0] } 1
          (ESP_HIDD_OPEN_EVT ESP_HIDD_SUCCESS ESP_HIDD_CONN_STATE_CONNECTED)).1
        2 (ESP_HIDD_CLOSE_EVT ESP_HIDD_SUCCESS ESP_HIDD_CONN_STATE_DISCONNECTED)
      = ({ protocol_mode := ESP_HIDD_REPORT_MODE, config_mutex := 0, buffer := [0, 0, 0, 0] },
         [Effect.ESP_LOGI, Effect.ESP_LOGI, Effect.vSemaphoreDelete 1, Effect.ESP_LOGI,
          Effect.esp_bt_gap_set_scan_mode ESP_BT_CONNECTABLE ESP_BT_GENERAL_DISCOVERABLE]) :=
  (connection_cycle
    { protocol_mode := ESP_HIDD_REPORT_MODE, config_mutex := 0, buffer := [0, 0, 0, 0] } 1 2
    rfl (by decide)).2.2.1

/-! ## The report descriptor -/

/-- C11: the report descriptor is a fixed sequence of 39 bytes; read as short
items it declares usage page 0x0C, usage 0x01 (Consumer Control), one
application collection closed at the end, report size 1, then five usages
(0xB5 next, 0xB6 previous, 0xB7 stop, 0xCD play/pause, 0xE2 mute) under an input
item with flags 0x06, two usages (0xE9 volume up, 0xEA volume down) under an
input item with flags 0x02, and one field under an input item with flags 0x01.
The eight declared fields are one bit each, 8 bits in all, and the i-th usage
sits at the bit of the i-th `CTRL_*` mask, `2 ^ i`. -/
theorem descriptor_layout :
    hid_media_descriptor_len = 39
      ∧ hid_media_descriptor.length = 39
      ∧ hidItems hid_media_descriptor_len hid_media_descriptor
          = [(0x05, [0x0C]), (0x09, [0x01]), (0xA1, [0x01]),
             (0x21, [0x00]), (0x25, [0x01]), (0x75, [0x01]),
             (0x95, [0x05]),
             (0x09, [0xB5]), (0x09, [0xB6]), (0x09, [0xB7]), (0x09, [0xCD]), (0x09, [0xE2]),
             (0x81, [0x06]),
             (0x95, [0x02]),
             (0x09, [0xE9]), (0x09, [0xEA]),
             (0x81, [0x02]),
             (0x95, [0x01]),
             (0x81, [0x01]),
             (0xC0, [])]
      ∧ hidFields hid_media_descriptor
          = [{ usage := some 0xB5, flags := 0x06, size := 1 },
             { usage := some 0xB6, flags := 0x06, size := 1 },
             { usage := some 0xB7, flags := 0x06, size := 1 },
             { usage := some 0xCD, flags := 0x06, size := 1 },
             { usage := some 0xE2, flags := 0x06, size := 1 },
             { usage := some 0xE9, flags := 0x02, size := 1 },
             { usage := some 0xEA, flags := 0x02, size := 1 },
             { usage := none, flags := 0x01, size := 1 }]
      ∧ ((hidFields hid_media_descriptor).map HidField.size).sum = 8
      ∧ ((hidFields hid_media_descriptor).filterMap HidField.usage).zip media_control_data
          = [(0xB5, CTRL_NEXT), (0xB6, CTRL_PREV), (0xB7, CTRL_STOP), (0xCD, CTRL_PLAYPAUSE),
             (0xE2, CTRL_MUTE), (0xE9, CTRL_VOLUP), (0xEA, CTRL_VOLDOWN)]
      ∧ media_control_data = (List.range 7).map (fun i => 2 ^ i) := by
  refine ⟨rfl, rfl, ?_, ?_, ?_, ?_, ?_⟩ <;> decide

/-! ## The frame push as a list of chunks -/

theorem sendFrame_loop_eq (buffer : Buf) (chunk_size : Nat) :
    ∀ remaining i, LCD_sendFrame.loop buffer chunk_size remaining i
      = (List.range remaining).flatMap (fun k =>
          LCD_sendData (buffer.offset ((i + k) * chunk_size)) chunk_size) := by
  intro remaining
  induction remaining with
  | zero => intro i; simp [LCD_sendFrame.loop]
  | succ n ih =>
    intro i
    rw [LCD_sendFrame.loop, ih, List.range_succ_eq_map, List.flatMap_cons, List.flatMap_map]
    have hk : ∀ k, i + 1 + k = i + (k + 1) := fun k => by omega
    simp only [hk, Function.comp_def, Nat.succ_eq_add_one, Nat.add_zero]

theorem sendFrame_calls_eq (buffer : Buf) (frame_size chunk_number : Nat) :
    LCD_sendFrame.calls buffer frame_size chunk_number
      = LCD_sendCommand CMD_RAMWR
          ++ (List.range chunk_number).flatMap (fun i =>
              LCD_sendData (buffer.offset (i * (frame_size / chunk_number)))
                (frame_size / chunk_number)) := by
  simp [LCD_sendFrame.calls, sendFrame_loop_eq]

theorem busTransfers_append (a b : List Effect) :
    busTransfers (a ++ b) = busTransfers a ++ busTransfers b := by
  induction a with
  | nil => simp [busTransfers]
  | cons e a ih => cases e <;> simp [busTransfers, ih]

theorem busTransfers_sendCommand (cmd : Nat) :
    busTransfers (LCD_sendCommand cmd) = [(8, [cmd])] := by
  simp [LCD_sendCommand, busTransfers]

theorem busTransfers_sendData (data : Buf) (len : Nat) :
    busTransfers (LCD_sendData data len)
      = if len = 0 then [] else [(len * 8, data.read len)] := by
  by_cases h : len = 0 <;> simp [LCD_sendData, busTransfers, h]

theorem busTransfers_chunks (f : Nat → Buf) (len : Nat) (l : List Nat) :
    busTransfers (l.flatMap (fun k => LCD_sendData (f k) len))
      = if len = 0 then [] else l.map (fun k => (len * 8, (f k).read len)) := by
  induction l with
  | nil => simp [busTransfers]
  | cons k l ih =>
    rw [List.flatMap_cons, busTransfers_append, ih, busTransfers_sendData]
    by_cases h : len = 0 <;> simp [h]

theorem busTransfers_sendFrame (buffer : Buf) (frame_size chunk_number : Nat) :
    busTransfers (LCD_sendFrame.calls buffer frame_size chunk_number)
      = (8, [CMD_RAMWR]) ::
          (if frame_size / chunk_number = 0 then []
           else (List.range chunk_number).map (fun i =>
             (frame_size / chunk_number * 8,
              (buffer.offset (i * (frame_size / chunk_number))).read
                (frame_size / chunk_number)))) := by
  rw [sendFrame_calls_eq, busTransfers_append, busTransfers_sendCommand,
    busTransfers_chunks (fun i => buffer.offset (i * (frame_size / chunk_number)))]
  rfl

theorem wire_sendFrame_calls (dc : Nat) (buffer : Buf) (frame_size chunk_number : Nat) :
    wire dc (LCD_sendFrame.calls buffer frame_size chunk_number)
      = WireByte.command CMD_RAMWR ::
          (buffer.read (chunk_number * (frame_size / chunk_number))).map WireByte.data := by
  have h0 := wire_sendFrame_loop buffer (frame_size / chunk_number) [] chunk_number 0 LOW
  have hoff : buffer.offset 0 = buffer := by
    funext j
    simp [Buf.offset]
  simp only [List.append_nil, Nat.zero_mul, hoff] at h0
  simp only [LCD_sendFrame.calls]
  rw [wire_sendCommand, h0]
  simp [wire]

theorem read_eq_iff (data : Buf) (a b : Nat) : data.read a = data.read b ↔ a = b := by
  constructor
  · intro h
    have hl := congrArg List.length h
    simpa [read_length] using hl
  · intro h
    rw [h]

/-! ## The media icon -/

/-- C12: for every icon index `LCD_drawMediaIcon` sets the window with
`(49, 92, 29, 29)`, i.e. 30x30 at the icon anchor, and then pushes
`media_icons[index]` with one `RAMWR` followed by 8 data transfers of 225 bytes
each, the i-th holding bytes `225 * i .. 225 * i + 224` of the bitmap, 1800
bytes in buffer order. -/
theorem drawMediaIcon_window_and_chunks (A : Assets) (icon_index : Nat) :
    LCD_drawMediaIcon A icon_index = some (LCD_drawMediaIcon.calls A icon_index)
      ∧ LCD_drawMediaIcon.calls A icon_index
          = LCD_setDrawingWindow 49 92 (30 - 1) (30 - 1)
              ++ (LCD_sendCommand CMD_RAMWR
              ++ (List.range 8).flatMap (fun i =>
                    LCD_sendData ((A.media_icons icon_index).offset (i * 225)) 225))
      ∧ busTransfers (LCD_drawMediaIcon.calls A icon_index)
          = [(8, [CMD_CASET]), (32, [0, 49, 0, 78]), (8, [CMD_RASET]), (32, [0, 92, 0, 121]),
             (8, [CMD_RAMWR])]
            ++ (List.range 8).map (fun i =>
                  (225 * 8, ((A.media_icons icon_index).offset (i * 225)).read 225))
      ∧ (∀ dc, ramwrPayload (wire dc (LCD_drawMediaIcon.calls A icon_index))
          = (A.media_icons icon_index).read 1800)
      ∧ ICON_SIZE = 1800 ∧ ICON_CHUNKS = 8 ∧ ICON_SIZE / ICON_CHUNKS = 225 := by
  have hwin : busTransfers (LCD_setDrawingWindow 49 92 29 29)
      = [(8, [CMD_CASET]), (32, [0, 49, 0, 78]), (8, [CMD_RASET]), (32, [0, 92, 0, 121])] := by
    decide
  refine ⟨drawMediaIcon_eq_some A icon_index, ?_, ?_, ?_, rfl, rfl, by decide⟩
  · simp only [LCD_drawMediaIcon.calls, sendFrame_calls_eq]
    rfl
  · simp only [LCD_drawMediaIcon.calls]
    rw [busTransfers_append, busTransfers_sendFrame]
    simp only [ICON_DISPLAY_X_OFFSET, ICON_DISPLAY_Y_OFFSET, ICON_WIDTH, ICON_HEIGHT, ICON_SIZE,
      ICON_CHUNKS]
    rw [show (30 - 1 : Nat) = 29 from rfl, hwin]
    simp
  · intro dc
    have h := ramwrPayload_window_frame dc ICON_DISPLAY_X_OFFSET ICON_DISPLAY_Y_OFFSET
      (ICON_WIDTH - 1) (ICON_HEIGHT - 1) (A.media_icons icon_index) ICON_SIZE ICON_CHUNKS
    simpa [LCD_sendFrame, LCD_drawMediaIcon.calls, ICON_CHUNKS, ICON_SIZE] using h

/-! ## The send primitive outside report mode -/

/-- C13 (fails): in boot mode, as recorded by the set-protocol event,
`send_media_report` logs an error and goes on: it makes the same two
interrupt-channel reports, the mask and then 0x00, with whatever the unassigned
locals `report_id` and `report_size` hold; the same happens in every mode other
than report mode. -/
theorem send_media_report_boot_mode_still_sends (portTICK_PERIOD_MS : Nat)
    (cfg : HID_config_t) (new_mutex stale_id stale_size mask : Nat) :
    (esp_bt_hidd_cb cfg new_mutex (ESP_HIDD_SET_PROTOCOL_EVT ESP_HIDD_BOOT_MODE)).1
        = { protocol_mode := ESP_HIDD_BOOT_MODE, config_mutex := cfg.config_mutex,
            buffer := cfg.buffer }
      ∧ send_media_report portTICK_PERIOD_MS
            (esp_bt_hidd_cb cfg new_mutex (ESP_HIDD_SET_PROTOCOL_EVT ESP_HIDD_BOOT_MODE)).1
            stale_id stale_size mask
        = [Effect.xSemaphoreTake cfg.config_mutex,
           Effect.ESP_LOGE,
           Effect.vTaskDelay (50 / portTICK_PERIOD_MS),
           Effect.ESP_LOGI,
           Effect.esp_bt_hid_device_send_report ESP_HIDD_REPORT_TYPE_INTRDATA stale_id
             stale_size mask,
           Effect.vTaskDelay (50 / portTICK_PERIOD_MS),
           Effect.esp_bt_hid_device_send_report ESP_HIDD_REPORT_TYPE_INTRDATA stale_id
             stale_size 0x00,
           Effect.xSemaphoreGive cfg.config_mutex]
      ∧ hidReports (send_media_report portTICK_PERIOD_MS
            (esp_bt_hidd_cb cfg new_mutex (ESP_HIDD_SET_PROTOCOL_EVT ESP_HIDD_BOOT_MODE)).1
            stale_id stale_size mask)
        = [(ESP_HIDD_REPORT_TYPE_INTRDATA, stale_id, stale_size, mask),
           (ESP_HIDD_REPORT_TYPE_INTRDATA, stale_id, stale_size, 0x00)]
      ∧ (cfg.protocol_mode ≠ ESP_HIDD_REPORT_MODE →
          hidReports (send_media_report portTICK_PERIOD_MS cfg stale_id stale_size mask)
            = [(ESP_HIDD_REPORT_TYPE_INTRDATA, stale_id, stale_size, mask),
               (ESP_HIDD_REPORT_TYPE_INTRDATA, stale_id, stale_size, 0x00)]) := by
  refine ⟨?_, ?_, ?_, ?_⟩
  · simp [esp_bt_hidd_cb]
  · simp [esp_bt_hidd_cb, send_media_report]
  · simp [esp_bt_hidd_cb, send_media_report, hidReports]
  · intro h
    simp [send_media_report, h, hidReports]

/-! ## The frame push in general -/

/-- C16 (as stated, fails when `size < chunks`): with 3 bytes in 5 chunks the
chunk size is 0, every `LCD_sendData` call returns at its empty-message guard,
and the only bus transfer is `RAMWR`; the five data transfers of the claim are
not made. -/
theorem sendFrame_small_frame_makes_no_data_transfer :
    (LCD_sendFrame (fun j => j) 3 5).map busTransfers = some [(8, [CMD_RAMWR])]
      ∧ ¬ ((LCD_sendFrame (fun j => j) 3 5).map busTransfers
            = some ((8, [CMD_RAMWR]) ::
                (List.range 5).map (fun i =>
                  (3 / 5 * 8, (Buf.offset (fun j => j) (i * (3 / 5))).read (3 / 5))))) := by
  constructor
  · decide
  · decide

/-- C16 (amended): for every buffer, size and chunk count above 0, with
`c = size / chunks`, the frame push makes the `RAMWR` command and then `chunks`
calls of `LCD_sendData`, the i-th with `buffer + i * c` and length `c`.  If
`c > 0` these are exactly `chunks` data transfers, the i-th carrying
`buffer[i * c .. (i + 1) * c)`; if `c = 0` no data transfer is made.  In both
cases the panel receives `RAMWR` and then the first `chunks * c` bytes of the
buffer in order, which is the whole buffer of `size` bytes if and only if
`size % chunks = 0`; otherwise the last `size % chunks` bytes are not sent. -/
theorem sendFrame_chunks (buffer : Buf) (size chunks : Nat) (hc : 0 < chunks) :
    LCD_sendFrame buffer size chunks = some (LCD_sendFrame.calls buffer size chunks)
      ∧ LCD_sendFrame.calls buffer size chunks
          = LCD_sendCommand CMD_RAMWR
              ++ (List.range chunks).flatMap (fun i =>
                    LCD_sendData (buffer.offset (i * (size / chunks))) (size / chunks))
      ∧ (0 < size / chunks →
          busTransfers (LCD_sendFrame.calls buffer size chunks)
            = (8, [CMD_RAMWR]) ::
                (List.range chunks).map (fun i =>
                  (size / chunks * 8,
                   (buffer.offset (i * (size / chunks))).read (size / chunks))))
      ∧ (size / chunks = 0 →
          busTransfers (LCD_sendFrame.calls buffer size chunks) = [(8, [CMD_RAMWR])])
      ∧ (∀ dc, wire dc (LCD_sendFrame.calls buffer size chunks)
          = WireByte.command CMD_RAMWR ::
              (buffer.read (chunks * (size / chunks))).map WireByte.data)
      ∧ (buffer.read (chunks * (size / chunks)) = buffer.read size ↔ size % chunks = 0)
      ∧ buffer.read size
          = buffer.read (chunks * (size / chunks))
              ++ (buffer.offset (chunks * (size / chunks))).read (size % chunks) := by
  have hdm : chunks * (size / chunks) + size % chunks = size := Nat.div_add_mod size chunks
  refine ⟨sendFrame_eq_some buffer size chunks (by omega), sendFrame_calls_eq buffer size chunks,
    ?_, ?_, fun dc => wire_sendFrame_calls dc buffer size chunks, ?_, ?_⟩
  · intro hpos
    have hne : size / chunks ≠ 0 := by omega
    rw [busTransfers_sendFrame]
    simp [hne]
  · intro hzero
    rw [busTransfers_sendFrame]
    simp [hzero]
  · rw [read_eq_iff]
    generalize chunks * (size / chunks) = q at hdm
    generalize size % chunks = r at hdm
    omega
  · rw [← read_add, hdm]

/-- Witness of C16: 7 bytes in 2 chunks are sent as two transfers of 3 bytes,
`[0, 1, 2]` and `[3, 4, 5]`; the byte 6 is not sent. -/
theorem sendFrame_chunks_witness :
    busTransfers (LCD_sendFrame.calls (fun j => j) 7 2)
      = (8, [CMD_RAMWR]) ::
          (List.range 2).map (fun i =>
            (7 / 2 * 8, (Buf.offset (fun j => j) (i * (7 / 2))).read (7 / 2))) :=
  (sendFrame_chunks (fun j => j) 7 2 (by decide)).2.2.1 (by decide)

/-! ## The data/command line -/

theorem wire_platform (dc : Nat) (e : Effect) (rest : List Effect)
    (he : e.touchesBus = false) : wire dc (e :: rest) = wire dc rest := by
  cases e <;> simp_all [wire, Effect.touchesBus]

theorem framed_platform (armed : Bool) (e : Effect) (rest : List Effect)
    (he : e.touchesBus = false) : framed armed (e :: rest) = framed false rest := by
  cases e <;> simp_all [framed, Effect.touchesBus]

theorem wire_steps (steps : List Step) (hok : ∀ s ∈ steps, s.ok = true) :
    ∀ dc, wire dc (steps.flatMap Step.calls) = steps.flatMap Step.intended := by
  induction steps with
  | nil => intro dc; simp [wire]
  | cons s steps ih =>
    intro dc
    have ih2 := ih (fun t ht => hok t (List.mem_cons_of_mem _ ht))
    have hs := hok s (List.mem_cons_self _ _)
    rw [List.flatMap_cons, List.flatMap_cons]
    cases s with
    | command cmd => simp [Step.calls, Step.intended, wire_sendCommand, ih2]
    | data buf len => simp [Step.calls, Step.intended, wire_sendData, ih2]
    | platform e =>
      have he : e.touchesBus = false := by simpa [Step.ok] using hs
      simp [Step.calls, Step.intended, wire_platform dc e _ he, ih2]

theorem framed_steps (steps : List Step) (hok : ∀ s ∈ steps, s.ok = true) :
    ∀ armed, framed armed (steps.flatMap Step.calls) = true := by
  induction steps with
  | nil => intro armed; simp [framed]
  | cons s steps ih =>
    intro armed
    have ih2 := ih (fun t ht => hok t (List.mem_cons_of_mem _ ht))
    have hs := hok s (List.mem_cons_self _ _)
    rw [List.flatMap_cons]
    cases s with
    | command cmd => simp [Step.calls, LCD_sendCommand, framed, ih2]
    | data buf len =>
      by_cases hl : len = 0 <;> simp [Step.calls, LCD_sendData, framed, hl, ih2]
    | platform e =>
      have he : e.touchesBus = false := by simpa [Step.ok] using hs
      simp [Step.calls, framed_platform armed e _ he, ih2]

theorem op_calls_eq_steps (op : PanelOp) :
    op.calls = op.steps.map (fun st => st.flatMap Step.calls) := by
  cases op with
  | send_command cmd => simp [PanelOp.calls, PanelOp.steps, Step.calls]
  | send_data buf len => simp [PanelOp.calls, PanelOp.steps, Step.calls]
  | init p => simp [PanelOp.calls, PanelOp.steps, Step.calls, LCD_init]
  | set_window x y w h =>
    simp [PanelOp.calls, PanelOp.steps, Step.calls, LCD_setDrawingWindow]
  | send_frame buffer size chunks =>
    by_cases hc : chunks = 0
    · simp [PanelOp.calls, PanelOp.steps, LCD_sendFrame, hc]
    · simp [PanelOp.calls, PanelOp.steps, LCD_sendFrame, hc, sendFrame_calls_eq, Step.calls,
        List.flatMap_map, Function.comp_def]

theorem op_steps_ok (op : PanelOp) (st : List Step) (h : op.steps = some st) :
    ∀ s ∈ st, s.ok = true := by
  cases op with
  | send_command cmd =>
    simp only [PanelOp.steps, Option.some.injEq] at h
    subst h
    simp [Step.ok]
  | send_data buf len =>
    simp only [PanelOp.steps, Option.some.injEq] at h
    subst h
    simp [Step.ok]
  | init p =>
    simp only [PanelOp.steps, Option.some.injEq] at h
    subst h
    simp [Step.ok, Effect.touchesBus, PIN_RESET, PIN_DATA_NCOMMAND]
  | set_window x y w h2 =>
    simp only [PanelOp.steps, Option.some.injEq] at h
    subst h
    simp [Step.ok]
  | send_frame buffer size chunks =>
    by_cases hc : chunks = 0
    · simp [PanelOp.steps, hc] at h
    · simp only [PanelOp.steps, hc, if_false, Option.some.injEq] at h
      subst h
      intro s hs
      simp only [List.mem_cons, List.mem_map] at hs
      rcases hs with rfl | ⟨i, _, rfl⟩ <;> rfl

theorem run_eq_steps (ops : List PanelOp) :
    ∀ tr, PanelOp.run ops = some tr →
      ∃ steps, PanelOp.runSteps ops = some steps ∧ tr = steps.flatMap Step.calls
        ∧ ∀ s ∈ steps, s.ok = true := by
  induction ops with
  | nil =>
    intro tr h
    simp only [PanelOp.run, Option.some.injEq] at h
    subst h
    exact ⟨[], rfl, rfl, by simp⟩
  | cons op ops ih =>
    intro tr h
    simp only [PanelOp.run, Option.bind_eq_some, Option.map_eq_some'] at h
    obtain ⟨tr1, h1, rest, h2, rfl⟩ := h
    obtain ⟨steps2, hs2, rfl, hok2⟩ := ih rest h2
    rw [op_calls_eq_steps, Option.map_eq_some'] at h1
    obtain ⟨steps1, hs1, rfl⟩ := h1
    refine ⟨steps1 ++ steps2, ?_, ?_, ?_⟩
    · simp [PanelOp.runSteps, hs1, hs2]
    · simp [List.flatMap_append]
    · intro s hs
      rcases List.mem_append.mp hs with h | h
      · exact op_steps_ok op steps1 hs1 s h
      · exact hok2 s h

/-- C14: `LCD_sendCommand` writes the data/command line low directly before its
one transfer and `LCD_sendData` writes it high directly before its transfer.
Any sequence of panel-driver operations that runs is a sequence of calls of
these two and of platform calls that touch neither the line nor the bus; the
panel receives every byte passed to `LCD_sendCommand` with the line low and
every byte passed to `LCD_sendData` with the line high, whatever the level
before, and every bus transfer directly follows the write of the line, with no
call in between. -/
theorem dc_line_framing (ops : List PanelOp) (tr : List Effect) (dc : Nat)
    (hrun : PanelOp.run ops = some tr) :
    (∀ cmd, LCD_sendCommand cmd
        = [Effect.gpio_set_level PIN_DATA_NCOMMAND LOW,
           Effect.spi_device_polling_transmit 8 [cmd]])
      ∧ (∀ (buf : Buf) len, LCD_sendData buf (len + 1)
        = [Effect.gpio_set_level PIN_DATA_NCOMMAND HIGH,
           Effect.spi_device_polling_transmit ((len + 1) * 8) (buf.read (len + 1))])
      ∧ ∃ steps, PanelOp.runSteps ops = some steps
          ∧ tr = steps.flatMap Step.calls
          ∧ (∀ s ∈ steps, s.ok = true)
          ∧ wire dc tr = steps.flatMap Step.intended
          ∧ ∀ armed, framed armed tr = true := by
  refine ⟨fun cmd => rfl, fun buf len => by simp [LCD_sendData], ?_⟩
  obtain ⟨steps, hs, rfl, hok⟩ := run_eq_steps ops tr hrun
  exact ⟨steps, hs, rfl, hok, wire_steps steps hok dc, framed_steps steps hok⟩

/-- Witness of C14: initialisation, a window set, a 2-chunk frame push of 8
bytes, a command and an empty data call, started with the line high. -/
theorem dc_line_framing_witness :
    ∃ steps,
      PanelOp.runSteps
          [PanelOp.init 10, PanelOp.set_window 2 1 127 127,
           PanelOp.send_frame (fun _ => 125) 8 2, PanelOp.send_command CMD_DISPON,
           PanelOp.send_data (fun _ => 0) 0] = some steps
        ∧ wire 1
            (LCD_init 10 ++ (LCD_setDrawingWindow 2 1 127 127
              ++ (LCD_sendFrame.calls (fun _ => 125) 8 2
              ++ (LCD_sendCommand CMD_DISPON ++ (LCD_sendData (fun _ => 0) 0 ++ [])))))
          = steps.flatMap Step.intended
        ∧ ∀ armed, framed armed
            (LCD_init 10 ++ (LCD_setDrawingWindow 2 1 127 127
              ++ (LCD_sendFrame.calls (fun _ => 125) 8 2
              ++ (LCD_sendCommand CMD_DISPON ++ (LCD_sendData (fun _ => 0) 0 ++ [])))))
            = true :=
  let h := (dc_line_framing
    [PanelOp.init 10, PanelOp.set_window 2 1 127 127,
     PanelOp.send_frame (fun _ => 125) 8 2, PanelOp.send_command CMD_DISPON,
     PanelOp.send_data (fun _ => 0) 0]
    (LCD_init 10 ++ (LCD_setDrawingWindow 2 1 127 127
      ++ (LCD_sendFrame.calls (fun _ => 125) 8 2
      ++ (LCD_sendCommand CMD_DISPON ++ (LCD_sendData (fun _ => 0) 0 ++ [])))))
    1 rfl).2.2
  h.elim (fun steps hs => ⟨steps, hs.1, hs.2.2.2.1, hs.2.2.2.2⟩)

/-! ## The clock invariant -/

theorem advance_in_range (s : ClockState) (h : s.hour < 24 ∧ s.mins < 60) :
    (vTaskUpdateDisplayTime.advance s).hour < 24
      ∧ (vTaskUpdateDisplayTime.advance s).mins < 60 := by
  obtain ⟨h1, h2⟩ := h
  unfold vTaskUpdateDisplayTime.advance
  split_ifs <;> dsimp only <;> omega

theorem iterate_advance_in_range (s : ClockState) (h : s.hour < 24 ∧ s.mins < 60) :
    ∀ n, (vTaskUpdateDisplayTime.advance^[n] s).hour < 24
      ∧ (vTaskUpdateDisplayTime.advance^[n] s).mins < 60 := by
  intro n
  induction n with
  | zero => simpa using h
  | succ n ih =>
    rw [Function.iterate_succ_apply']
    exact advance_in_range _ ih

theorem clock_run_state (portTICK_PERIOD_MS : Nat) (A : Assets) :
    ∀ n s, ∃ tr, vTaskUpdateDisplayTime.run portTICK_PERIOD_MS A n s
      = some (vTaskUpdateDisplayTime.advance^[n] s, tr) := by
  intro n
  induction n with
  | zero => intro s; exact ⟨[], rfl⟩
  | succ n ih =>
    intro s
    obtain ⟨tr, htr⟩ := ih (vTaskUpdateDisplayTime.advance s)
    obtain ⟨d, hd⟩ : ∃ d, vTaskUpdateDisplayTime.draw A s.hour s.mins = some d :=
      ⟨_, draw_eq_some A s.hour s.mins⟩
    refine ⟨(d ++ [Effect.vTaskDelay (60000 / portTICK_PERIOD_MS)]) ++ tr, ?_⟩
    simp only [vTaskUpdateDisplayTime.run, vTaskUpdateDisplayTime.iteration, hd,
      Option.map_some', Option.some_bind, htr, Function.iterate_succ_apply]

/-- C15: from the compile-time initial value (5, 40), the clock task completes
any number `n` of iterations, and the state it then holds, the `n`-fold advance
of (5, 40), has its hour in 0..23 and its minute in 0..59, so the four digit
indices `hour / 10`, `hour % 10`, `mins / 10`, `mins % 10` are in 0..9. -/
theorem clock_state_in_range (portTICK_PERIOD_MS : Nat) (A : Assets) (n : Nat) :
    ClockState.initial = { hour := 5, mins := 40 }
      ∧ ∃ s tr,
          vTaskUpdateDisplayTime.run portTICK_PERIOD_MS A n ClockState.initial = some (s, tr)
            ∧ s = vTaskUpdateDisplayTime.advance^[n] ClockState.initial
            ∧ s.hour < 24 ∧ s.mins < 60
            ∧ s.hour / 10 < 10 ∧ s.hour % 10 < 10 ∧ s.mins / 10 < 10 ∧ s.mins % 10 < 10 := by
  refine ⟨rfl, ?_⟩
  obtain ⟨tr, htr⟩ := clock_run_state portTICK_PERIOD_MS A n ClockState.initial
  obtain ⟨h1, h2⟩ := iterate_advance_in_range ClockState.initial
    (by constructor <;> decide) n
  refine ⟨_, tr, htr, rfl, h1, h2, ?_, ?_, ?_, ?_⟩ <;> omega

/-! ## The reach of the selection -/

theorem handler_iteration_cases (portTICK_PERIOD_MS : Nat) (A : Assets) (cfg : HID_config_t)
    (stale_id stale_size s io_num : Nat) (hs : s < 6) :
    ∃ (s2 : Nat) (tr : List Effect) (ms : List Nat),
      push_button_handler.iteration portTICK_PERIOD_MS A cfg stale_id stale_size s io_num
          = some (s2, tr)
        ∧ s2 < 6
        ∧ (∀ m ∈ ms, m ∈ [0x01, 0x02, 0x04, 0x08, 0x10, 0x20])
        ∧ (hidReports tr).map (fun r => r.2.2.2) = ms.flatMap (fun m => [m, 0x00]) := by
  by_cases h1 : io_num = PB_1_PIN
  · subst h1
    exact ⟨(s + 1) % 6, _, [], button_a_iteration _ _ _ _ _ _, Nat.mod_lt _ (by decide),
      by simp, by simp [hidReports, hidReports_drawMediaIcon]⟩
  · by_cases h2 : io_num = PB_2_PIN
    · subst h2
      refine ⟨s, Effect.ESP_LOGI :: send_media_report portTICK_PERIOD_MS cfg stale_id stale_size
        (media_control_data.getD s 0), [media_control_data.getD s 0], ?_, hs, ?_, ?_⟩
      · simp only [push_button_handler.iteration]
        simp [PB_1_PIN, PB_2_PIN]
      · intro m hm
        simp only [List.mem_singleton] at hm
        subst hm
        interval_cases s <;> decide
      · by_cases hm : cfg.protocol_mode = ESP_HIDD_REPORT_MODE <;>
          simp [send_media_report, hm, hidReports]
    · exact ⟨s, [Effect.ESP_LOGI], [], by simp [push_button_handler.iteration, h1, h2], hs,
        by simp, by simp [hidReports]⟩

theorem handler_run_cases (portTICK_PERIOD_MS : Nat) (A : Assets) (cfg : HID_config_t)
    (stale_id stale_size : Nat) (events : List Nat) :
    ∀ s, s < 6 → ∃ (s2 : Nat) (tr : List Effect) (ms : List Nat),
      push_button_handler.run portTICK_PERIOD_MS A cfg stale_id stale_size s events
          = some (s2, tr)
        ∧ s2 < 6
        ∧ (∀ m ∈ ms, m ∈ [0x01, 0x02, 0x04, 0x08, 0x10, 0x20])
        ∧ (hidReports tr).map (fun r => r.2.2.2) = ms.flatMap (fun m => [m, 0x00]) := by
  induction events with
  | nil =>
    intro s hs
    exact ⟨s, [], [], rfl, hs, by simp, by simp [hidReports]⟩
  | cons io_num events ih =>
    intro s hs
    obtain ⟨s1, tr1, ms1, h1, hs1, hm1, hr1⟩ :=
      handler_iteration_cases portTICK_PERIOD_MS A cfg stale_id stale_size s io_num hs
    obtain ⟨s2, tr2, ms2, h2, hs2, hm2, hr2⟩ := ih s1 hs1
    refine ⟨s2, tr1 ++ tr2, ms1 ++ ms2, ?_, hs2, ?_, ?_⟩
    · simp [push_button_handler.run, h1, h2]
    · intro m hm
      rcases List.mem_append.mp hm with h | h
      · exact hm1 m h
      · exact hm2 m h
    · rw [hidReports_append, List.map_append, hr1, hr2, List.flatMap_append]

theorem handler_run_append (portTICK_PERIOD_MS : Nat) (A : Assets) (cfg : HID_config_t)
    (stale_id stale_size : Nat) (e1 e2 : List Nat) :
    ∀ s, push_button_handler.run portTICK_PERIOD_MS A cfg stale_id stale_size s (e1 ++ e2)
      = (push_button_handler.run portTICK_PERIOD_MS A cfg stale_id stale_size s e1).bind
          (fun r =>
            (push_button_handler.run portTICK_PERIOD_MS A cfg stale_id stale_size r.1 e2).map
              (fun r2 => (r2.1, r.2 ++ r2.2))) := by
  induction e1 with
  | nil =>
    intro s
    simp [push_button_handler.run]
  | cons io_num e1 ih =>
    intro s
    rw [List.cons_append, push_button_handler.run, push_button_handler.run]
    rcases push_button_handler.iteration portTICK_PERIOD_MS A cfg stale_id stale_size s
        io_num with _ | r
    · rfl
    · simp only [Option.some_bind]
      rw [ih r.1]
      rcases push_button_handler.run portTICK_PERIOD_MS A cfg stale_id stale_size r.1
          e1 with _ | r1
      · rfl
      · simp only [Option.some_bind, Option.map_some']
        rcases push_button_handler.run portTICK_PERIOD_MS A cfg stale_id stale_size r1.1
            e2 with _ | r2
        · rfl
        · simp

/-- C17: from selection 0, the input handler completes every finite sequence of
queue items with the selection in 0..5, also after every initial part of the
sequence; the reports it has sent are pairs of a press mask out of 0x01, 0x02,
0x04, 0x08, 0x10, 0x20 and the release 0x00, so none carries 0x40 (volume
down); and each selection `k` in 0..5 is reached by `k` presses of Button A,
after which Button B sends the mask `2 ^ k`. -/
theorem volume_down_unreachable (portTICK_PERIOD_MS : Nat) (A : Assets) (cfg : HID_config_t)
    (stale_id stale_size : Nat) :
    (∀ events : List Nat, ∃ (s : Nat) (tr : List Effect) (ms : List Nat),
        push_button_handler.run portTICK_PERIOD_MS A cfg stale_id stale_size 0 events
            = some (s, tr)
          ∧ s < 6
          ∧ (∀ m ∈ ms, m ∈ [0x01, 0x02, 0x04, 0x08, 0x10, 0x20])
          ∧ (hidReports tr).map (fun r => r.2.2.2) = ms.flatMap (fun m => [m, 0x00])
          ∧ ∀ r ∈ hidReports tr, r.2.2.2 ≠ CTRL_VOLDOWN)
      ∧ (∀ (events : List Nat) (k : Nat), ∃ s tr,
          push_button_handler.run portTICK_PERIOD_MS A cfg stale_id stale_size 0
              (events.take k) = some (s, tr)
            ∧ s < 6)
      ∧ (∀ k, k < 6 → ∃ tr,
          push_button_handler.run portTICK_PERIOD_MS A cfg stale_id stale_size 0
              (List.replicate k PB_1_PIN) = some (k, tr))
      ∧ (∀ k, k < 6 → ∃ tr,
          push_button_handler.run portTICK_PERIOD_MS A cfg stale_id stale_size 0
              (List.replicate k PB_1_PIN ++ [PB_2_PIN]) = some (k, tr)
            ∧ (hidReports tr).map (fun r => r.2.2.2) = [2 ^ k, 0x00]) := by
  refine ⟨?_, ?_, ?_, ?_⟩
  · intro events
    obtain ⟨s, tr, ms, h, hs, hm, hr⟩ :=
      handler_run_cases portTICK_PERIOD_MS A cfg stale_id stale_size events 0 (by decide)
    refine ⟨s, tr, ms, h, hs, hm, hr, ?_⟩
    intro r hmem
    have hin : r.2.2.2 ∈ (hidReports tr).map (fun r => r.2.2.2) :=
      List.mem_map.mpr ⟨r, hmem, rfl⟩
    rw [hr, List.mem_flatMap] at hin
    obtain ⟨m, hmm, hrm⟩ := hin
    have hset := hm m hmm
    simp only [List.mem_cons, List.mem_singleton, List.not_mem_nil, or_false] at hset hrm
    simp only [CTRL_VOLDOWN]
    omega
  · intro events k
    obtain ⟨s, tr, _, h, hs, _, _⟩ :=
      handler_run_cases portTICK_PERIOD_MS A cfg stale_id stale_size (events.take k) 0
        (by decide)
    exact ⟨s, tr, h, hs⟩
  · intro k hk
    obtain ⟨tr, htr, _⟩ :=
      button_a_run portTICK_PERIOD_MS A cfg stale_id stale_size k 0 (by decide)
    refine ⟨tr, ?_⟩
    rw [htr]
    simp [Nat.mod_eq_of_lt hk]
  · intro k hk
    obtain ⟨tr, htr, hrep⟩ :=
      button_a_run portTICK_PERIOD_MS A cfg stale_id stale_size k 0 (by decide)
    have hk2 : (0 + k) % 6 = k := by omega
    rw [hk2] at htr
    have hmask : media_control_data.getD k 0 = 2 ^ k := by
      interval_cases k <;> rfl
    have hb : push_button_handler.iteration portTICK_PERIOD_MS A cfg stale_id stale_size k
        PB_2_PIN
        = some (k, Effect.ESP_LOGI ::
            send_media_report portTICK_PERIOD_MS cfg stale_id stale_size (2 ^ k)) := by
      simp only [push_button_handler.iteration, hmask]
      simp [PB_1_PIN, PB_2_PIN]
    refine ⟨tr ++ (Effect.ESP_LOGI ::
        send_media_report portTICK_PERIOD_MS cfg stale_id stale_size (2 ^ k) ++ []), ?_, ?_⟩
    · rw [handler_run_append, htr]
      simp [push_button_handler.run, hb]
    · rw [hidReports_append, hrep]
      by_cases hm : cfg.protocol_mode = ESP_HIDD_REPORT_MODE <;>
        simp [hidReports, send_media_report, hm]

end SmartWatch
